import Mathlib

/-!
Verification development for the autotrade simulation core
(`autotrade_service/simulation/state.py`, `simulation/broker.py`,
`indicators/calculations.py`, `feedback/feedback_engine.py`).

Python floats are modelled by `ℚ` (the arithmetic in these claims is exact),
naive UTC datetimes by an opaque integer instant (`isoformat` /
`fromisoformat` form an exact inverse pair on naive datetimes, so a
serialized timestamp is modelled by the instant itself), Python dicts keyed
by symbol by insertion-ordered association lists, and the broker's
human-readable f-string messages and free-text close reasons by closed sum
types carrying the interpolated data (each constructor stands for exactly
one f-string template of the source).
-/

namespace Autotrade

/-- Naive UTC instant (`datetime.utcnow()`); the unit is irrelevant to the
claims. -/
abbrev DateTime := Int

/-- `state.ExitPlan`. -/
structure ExitPlan where
  stop_loss : Option ℚ := none
  take_profit : Option ℚ := none
  invalidation_condition : Option String := none
deriving Repr, DecidableEq

/-- The strings the broker passes as a close `reason`, one constructor per
f-string template of `broker.py` (`"Stop-loss triggered at $…"`,
`"Take-profit triggered at $…"`, `"Invalidation: …"`); `text s` is a plain
string such as a decision rationale or `""`. -/
inductive CloseReason where
  | text (s : String)
  | stopLoss (price : ℚ)
  | takeProfit (price : ℚ)
  | invalidation (condition : String)
deriving Repr, DecidableEq

/-- Python `reason or default` on an optional reason string: `None` and the
empty string are falsy and fall back to the default. -/
def reasonOr (r : Option CloseReason) (d : String) : CloseReason :=
  match r with
  | none => .text d
  | some (.text s) => if s = "" then .text d else .text s
  | some r => r

/-- `state.SimulatedPosition` (data fields). -/
structure SimulatedPosition where
  symbol : String
  quantity : ℚ
  entry_price : ℚ
  entry_timestamp : DateTime
  current_price : ℚ
  confidence : ℚ := 0
  leverage : ℚ := 1
  exit_plan : ExitPlan := {}
deriving Repr, DecidableEq

/-- `SimulatedPosition.notional_value`. -/
def SimulatedPosition.notional_value (p : SimulatedPosition) : ℚ :=
  |p.quantity * p.current_price|

/-- `SimulatedPosition.unrealized_pnl`. -/
def SimulatedPosition.unrealized_pnl (p : SimulatedPosition) : ℚ :=
  if p.quantity ≥ 0 then p.quantity * (p.current_price - p.entry_price)
  else |p.quantity| * (p.entry_price - p.current_price)

/-- `SimulatedPosition.unrealized_pnl_pct`. -/
def SimulatedPosition.unrealized_pnl_pct (p : SimulatedPosition) : ℚ :=
  let entry_notional := |p.quantity * p.entry_price|
  if entry_notional = 0 then 0 else p.unrealized_pnl / entry_notional * 100

/-- `state.EvaluationLogEntry`. -/
structure EvaluationLogEntry where
  timestamp : DateTime
  symbol : String
  action : String
  confidence : ℚ
  size_pct : ℚ
  rationale : String
  price : ℚ
  executed : Bool := false
  chain_of_thought : String := ""
  system_prompt : String := ""
  user_payload : String := ""
  tool_payload_json : Option String := none
deriving Repr, DecidableEq

/-- `state.TradeLogEntry`. -/
structure TradeLogEntry where
  timestamp : DateTime
  symbol : String
  action : String
  price : ℚ
  quantity : ℚ
  realized_pnl : ℚ := 0
  reason : CloseReason := .text ""
deriving Repr, DecidableEq

/-- `state.ClosedPosition`. -/
structure ClosedPosition where
  symbol : String
  quantity : ℚ
  entry_price : ℚ
  exit_price : ℚ
  entry_timestamp : DateTime
  exit_timestamp : DateTime
  realized_pnl : ℚ
  realized_pnl_pct : ℚ
  leverage : ℚ
  reason : CloseReason := .text ""
deriving Repr, DecidableEq

/-- `state.SimulatedPortfolio`; `positions` is the insertion-ordered
symbol-keyed dict. -/
structure SimulatedPortfolio where
  portfolio_id : String
  starting_cash : ℚ
  current_cash : ℚ
  positions : List (String × SimulatedPosition) := []
  trade_log : List TradeLogEntry := []
  evaluation_log : List EvaluationLogEntry := []
  closed_positions : List ClosedPosition := []
  created_at : DateTime
  updated_at : DateTime
deriving Repr, DecidableEq

/-- `SimulatedPortfolio.total_position_value`. -/
def SimulatedPortfolio.total_position_value (pf : SimulatedPortfolio) : ℚ :=
  (pf.positions.map (fun kv => kv.2.notional_value)).sum

/-- `SimulatedPortfolio.equity`. -/
def SimulatedPortfolio.equity (pf : SimulatedPortfolio) : ℚ :=
  pf.current_cash + pf.total_position_value

/-- `persistence.create_initial_state` (the portfolio it constructs; the
`save_state` file write is I/O outside the data model). -/
def create_initial_state (portfolio_id : String) (starting_cash : ℚ)
    (now : DateTime) : SimulatedPortfolio :=
  { portfolio_id := portfolio_id
    starting_cash := starting_cash
    current_cash := starting_cash
    created_at := now
    updated_at := now }

/-- Python dict membership / indexing on an association list. -/
def lookupKey {α : Type} (l : List (String × α)) (k : String) : Option α :=
  match l with
  | [] => none
  | (s, v) :: rest => if s = k then some v else lookupKey rest k

/-- Python `dict.pop(k)`: remove the entry, keeping the order of the rest. -/
def popKey {α : Type} (l : List (String × α)) (k : String) :
    Option (α × List (String × α)) :=
  match l with
  | [] => none
  | (s, v) :: rest =>
    if s = k then some (v, rest)
    else (popKey rest k).map (fun qr => (qr.1, (s, v) :: qr.2))

/-- Python `dict[k] = v`: update in place if the key exists (keeping its
position), else append. -/
def setKey {α : Type} (l : List (String × α)) (k : String) (v : α) :
    List (String × α) :=
  match l with
  | [] => [(k, v)]
  | (s, w) :: rest => if s = k then (k, v) :: rest else (s, w) :: setKey rest k v

/-- `llm.schemas.DecisionAction`. -/
inductive DecisionAction where
  | hold | close | buy | sell | no_entry
deriving Repr, DecidableEq

/-- `action.value.upper()` — the enum values are already upper-case. -/
def DecisionAction.valueUpper : DecisionAction → String
  | .hold => "HOLD"
  | .close => "CLOSE"
  | .buy => "BUY"
  | .sell => "SELL"
  | .no_entry => "NO_ENTRY"

/-- `llm.schemas.DecisionPayload` (the action already normalized to the
enum, as `execute` does on entry). -/
structure DecisionPayload where
  symbol : String
  action : DecisionAction
  quantity : Option ℚ := none
  size_pct : Option ℚ := none
  leverage : Option ℚ := none
  confidence : Option ℚ := none
  stop_loss : Option ℚ := none
  take_profit : Option ℚ := none
  max_slippage_bps : Option Int := none
  rationale : Option String := none
  invalidation_condition : Option String := none
  chain_of_thought : Option String := none
deriving Repr, DecidableEq

/-- Python `x or default` for an optional float: `None` and `0.0` are falsy. -/
def pyOrQ (x : Option ℚ) (d : ℚ) : ℚ :=
  match x with
  | none => d
  | some v => if v = 0 then d else v

/-- Python truthiness of an optional float (`None` and `0.0` are falsy). -/
def truthyQ : Option ℚ → Bool
  | none => false
  | some v => v ≠ 0

/-- Python truthiness of an optional string (`None` and `""` are falsy). -/
def truthyS : Option String → Bool
  | none => false
  | some s => s ≠ ""

/-- The return strings of the broker's execution paths, one constructor per
f-string template in `broker.py`, carrying the interpolated values. -/
inductive ExecMessage where
  | noMarketData (symbol : String)
  | invalidPrice (symbol : String) (price : ℚ)
  | buyNonPositiveSize (symbol : String) (quantity cost leverage : ℚ)
  | buyInsufficientCash (symbol : String) (need have_cash : ℚ)
  | buyDone (averaged : Bool) (symbol : String)
      (quantity fill leverage notional cost cash : ℚ)
  | sellIgnored (symbol : String)
  | closeIgnored (symbol : String)
  | closeDone (symbol : String) (quantity fill leverage margin pnl cash : ℚ)
  | holdIgnored (symbol : String)
  | holdDone (symbol : String) (price pnl pnl_pct : ℚ)
  | noEntry (symbol : String) (price confidence : ℚ) (reason : String)
  | errorExecuting (action : DecisionAction) (symbol : String)
deriving Repr, DecidableEq

/-- The exit event handed to
`TradeOutcomeTracker.register_position_exit`; the broker stores (at most)
one such pending coroutine in `_pending_exit_event`. -/
structure ExitEvent where
  symbol : String
  exit_price : ℚ
  exit_action : String
  exit_reason : CloseReason
deriving Repr, DecidableEq

/-- `broker.SimulatedBroker` state: the managed portfolio, the two
configuration numbers, whether an outcome tracker was supplied, and the
single `_pending_exit_event` slot. -/
structure SimulatedBroker where
  portfolio : SimulatedPortfolio
  max_slippage_bps : ℚ := 5
  position_size_limit_pct : ℚ := 50
  outcome_tracker : Bool := false
  pending_exit_event : Option ExitEvent := none
deriving Repr, DecidableEq

/-- `SimulatedBroker._build_exit_plan` (the `current_price` argument is
unused in the source too). -/
def build_exit_plan (decision : DecisionPayload) (_current_price : ℚ) : ExitPlan :=
  { stop_loss := decision.stop_loss
    take_profit := decision.take_profit
    invalidation_condition := decision.invalidation_condition }

/-- `SimulatedBroker._mark_evaluation_executed`: walk the log from the most
recent entry and flip `executed` on the first entry matching the symbol and
timestamp. `markLastMatching` is the reversed-list worker. -/
def markLastMatching (symbol : String) (ts : DateTime) :
    List EvaluationLogEntry → List EvaluationLogEntry
  | [] => []
  | e :: rest =>
    if e.symbol = symbol ∧ e.timestamp = ts then { e with executed := true } :: rest
    else e :: markLastMatching symbol ts rest

/-- See `markLastMatching`. -/
def mark_evaluation_executed (log : List EvaluationLogEntry) (symbol : String)
    (ts : DateTime) : List EvaluationLogEntry :=
  (markLastMatching symbol ts log.reverse).reverse

/-- `SimulatedBroker._execute_close`. The source's inline comment says
margin *plus PnL* is returned to cash, but the executable statement adds
only `margin_returned = notional / leverage`. -/
def execute_close (br : SimulatedBroker) (symbol : String) (fill_price : ℚ)
    (timestamp : DateTime) (reason : Option CloseReason) :
    SimulatedBroker × ExecMessage :=
  match popKey br.portfolio.positions symbol with
  | none => (br, .closeIgnored symbol)
  | some (position, remaining) =>
    let notional := position.quantity * fill_price
    let realized_pnl := position.quantity * (fill_price - position.entry_price)
    let entry_notional := |position.quantity * position.entry_price|
    let realized_pct :=
      if entry_notional = 0 then 0 else realized_pnl / entry_notional * 100
    let margin_returned := notional / position.leverage
    let new_cash := br.portfolio.current_cash + margin_returned
    let trade : TradeLogEntry :=
      { timestamp := timestamp, symbol := symbol, action := "CLOSE"
        price := fill_price, quantity := position.quantity
        realized_pnl := realized_pnl, reason := reasonOr reason "" }
    let closed : ClosedPosition :=
      { symbol := symbol, quantity := position.quantity
        entry_price := position.entry_price, exit_price := fill_price
        entry_timestamp := position.entry_timestamp, exit_timestamp := timestamp
        realized_pnl := realized_pnl, realized_pnl_pct := realized_pct
        leverage := position.leverage, reason := reasonOr reason "" }
    let pf := { br.portfolio with
        current_cash := new_cash
        positions := remaining
        trade_log := br.portfolio.trade_log ++ [trade]
        closed_positions := br.portfolio.closed_positions ++ [closed] }
    let pending :=
      if br.outcome_tracker then
        some { symbol := symbol, exit_price := fill_price, exit_action := "CLOSE"
               exit_reason := reasonOr reason "Position closed" : ExitEvent }
      else br.pending_exit_event
    ({ br with portfolio := pf, pending_exit_event := pending },
     .closeDone symbol position.quantity fill_price position.leverage
       margin_returned realized_pnl new_cash)

/-- `SimulatedBroker._execute_sell`: treat as CLOSE when a position exists,
otherwise report that short selling is not supported. -/
def execute_sell (br : SimulatedBroker) (decision : DecisionPayload)
    (fill_price : ℚ) (timestamp : DateTime) : SimulatedBroker × ExecMessage :=
  if (lookupKey br.portfolio.positions decision.symbol).isSome then
    execute_close br decision.symbol fill_price timestamp
      (decision.rationale.map CloseReason.text)
  else (br, .sellIgnored decision.symbol)

/-- Result of `_execute_buy`: a returned message, or the `ValueError` the
source raises on a non-positive fill price (caught by `execute`). -/
inductive BuyResult where
  | ok (msg : ExecMessage)
  | raised
deriving Repr, DecidableEq

/-- `SimulatedBroker._execute_buy`. (`register_position_entry` mutates only
the tracker's own table, not broker state, and is synchronous; it has no
effect on any field modelled here.) -/
def execute_buy (br : SimulatedBroker) (decision : DecisionPayload)
    (fill_price : ℚ) (timestamp : DateTime) : SimulatedBroker × BuyResult :=
  let symbol := decision.symbol
  let leverage := pyOrQ decision.leverage 1
  let equity := br.portfolio.equity
  let position_value :=
    match decision.size_pct with
    | some size_pct => equity * (size_pct / 100) * leverage
    | none =>
      match decision.quantity with
      | some quantity => quantity * fill_price
      | none => equity * (10 / 100) * leverage
  let max_position_value := equity * (br.position_size_limit_pct / 100)
  let position_value :=
    if position_value > max_position_value then max_position_value
    else position_value
  if fill_price ≤ 0 then (br, .raised)
  else
    let quantity := position_value / fill_price
    let cost := position_value / leverage
    if quantity ≤ 0 ∨ cost ≤ 0 then
      (br, .ok (.buyNonPositiveSize symbol quantity cost leverage))
    else if cost > br.portfolio.current_cash then
      (br, .ok (.buyInsufficientCash symbol cost br.portfolio.current_cash))
    else
      let cash := br.portfolio.current_cash - cost
      let (positions, averaged) :=
        match lookupKey br.portfolio.positions symbol with
        | some existing_pos =>
          let total_quantity := existing_pos.quantity + quantity
          let avg_price :=
            (existing_pos.quantity * existing_pos.entry_price
              + quantity * fill_price) / total_quantity
          let updated := { existing_pos with
              quantity := total_quantity
              entry_price := avg_price
              current_price := fill_price
              confidence := pyOrQ decision.confidence existing_pos.confidence
              exit_plan := build_exit_plan decision fill_price }
          (setKey br.portfolio.positions symbol updated, true)
        | none =>
          let pos : SimulatedPosition :=
            { symbol := symbol, quantity := quantity, entry_price := fill_price
              entry_timestamp := timestamp, current_price := fill_price
              confidence := decision.confidence.getD 0, leverage := leverage
              exit_plan := build_exit_plan decision fill_price }
          (setKey br.portfolio.positions symbol pos, false)
      let trade : TradeLogEntry :=
        { timestamp := timestamp, symbol := symbol, action := "BUY"
          price := fill_price, quantity := quantity, realized_pnl := 0
          reason := .text ((decision.rationale).getD "") }
      let pf := { br.portfolio with
          current_cash := cash
          positions := positions
          trade_log := br.portfolio.trade_log ++ [trade] }
      ({ br with portfolio := pf },
       .ok (.buyDone averaged symbol quantity fill_price leverage
         (quantity * fill_price) cost cash))

/-- `SimulatedBroker._execute_hold`. -/
def execute_hold (br : SimulatedBroker) (decision : DecisionPayload)
    (current_price : ℚ) : SimulatedBroker × ExecMessage :=
  match lookupKey br.portfolio.positions decision.symbol with
  | none => (br, .holdIgnored decision.symbol)
  | some position =>
    let position := { position with current_price := current_price }
    let position :=
      match decision.confidence with
      | some c => { position with confidence := c }
      | none => position
    let position :=
      if truthyQ decision.stop_loss ∨ truthyQ decision.take_profit
          ∨ truthyS decision.invalidation_condition then
        { position with exit_plan := build_exit_plan decision current_price }
      else position
    let pf := { br.portfolio with
        positions := setKey br.portfolio.positions decision.symbol position }
    ({ br with portfolio := pf },
     .holdDone decision.symbol current_price position.unrealized_pnl
       position.unrealized_pnl_pct)

/-- Python `s or default` for an optional string (`None` and `""` falsy). -/
def pyOrS (x : Option String) (d : String) : String :=
  match x with
  | none => d
  | some s => if s = "" then d else s

/-- `SimulatedBroker._execute_no_entry` (logs only; never mutates state). -/
def execute_no_entry (br : SimulatedBroker) (decision : DecisionPayload)
    (current_price : ℚ) : SimulatedBroker × ExecMessage :=
  (br, .noEntry decision.symbol current_price (decision.confidence.getD 0)
    (pyOrS decision.rationale "N/A"))

/-- Literal prefix match on character lists (a regex literal). -/
def matchLit : List Char → List Char → Option (List Char)
  | [], s => some s
  | _, [] => none
  | p :: ps, c :: cs => if c = p then matchLit ps cs else none

/-- Maximal run of whitespace (regex `\s*`). -/
def skipSpaces0 : List Char → List Char
  | [] => []
  | c :: cs => if c.isWhitespace then skipSpaces0 cs else c :: cs

/-- Regex `\s+`: at least one whitespace character. -/
def skipSpaces1 : List Char → Option (List Char)
  | [] => none
  | c :: cs => if c.isWhitespace then some (skipSpaces0 cs) else none

/-- Digit run to a natural number. -/
def digitsToNat (ds : List Char) : ℕ :=
  ds.foldl (fun acc c => 10 * acc + (c.toNat - Char.toNat '0')) 0

/-- Regex `\d+(?:\.\d+)?` as a rational (the fractional part is consumed
only when at least one digit follows the dot, as in the regex). -/
def parseNumber (s : List Char) : Option ℚ :=
  let ds := s.takeWhile Char.isDigit
  let rest := s.dropWhile Char.isDigit
  if ds.isEmpty then none
  else
    let intval : ℚ := (digitsToNat ds : ℚ)
    match rest with
    | '.' :: rest2 =>
      let fs := rest2.takeWhile Char.isDigit
      if fs.isEmpty then some intval
      else some (intval + (digitsToNat fs : ℚ) / (10 : ℚ) ^ fs.length)
    | _ => some intval

/-- Try one keyword of an alternation as a literal (the alternatives are
letter-disjoint, so no backtracking arises). -/
def matchAlt (kws : List String) (s : List Char) : Option (List Char) :=
  match kws with
  | [] => none
  | k :: rest =>
    match matchLit k.toList s with
    | some r => some r
    | none => matchAlt rest s

/-- Match `(close|price)\s+(kw…)\s+\d+(?:\.\d+)?` anchored at the current
position, returning the captured number. -/
def matchCondAt (kws : List String) (s : List Char) : Option ℚ := do
  let r1 ← matchAlt ["close", "price"] s
  let r2 ← skipSpaces1 r1
  let r3 ← matchAlt kws r2
  let r4 ← skipSpaces1 r3
  parseNumber r4

/-- `re.search` of the pattern above: leftmost match anywhere in the
string. -/
def searchCond (kws : List String) : List Char → Option ℚ
  | [] => none
  | c :: rest =>
    match matchCondAt kws (c :: rest) with
    | some t => some t
    | none => searchCond kws rest

/-- `SimulatedBroker._evaluate_invalidation`: parse
`"(close|price) (below|under) N"` / `"(close|price) (above|over) N"`
(case-insensitively, via lowering the text) and compare the price. -/
def evaluate_invalidation (condition : String) (current_price : ℚ) : Bool :=
  let chars := condition.toLower.toList
  let belowHit :=
    match searchCond ["below", "under"] chars with
    | some threshold => decide (current_price < threshold)
    | none => false
  if belowHit then true
  else
    match searchCond ["above", "over"] chars with
    | some threshold => decide (current_price > threshold)
    | none => false

/-- Tail of `SimulatedBroker._check_exit_triggers` after the stop-loss
check did not fire: take-profit (`≥`), then the invalidation condition
(Python truthiness: an empty condition string is skipped). -/
def check_exit_triggers_tp (br : SimulatedBroker) (symbol : String)
    (position : SimulatedPosition) (current_price : ℚ)
    (timestamp : DateTime) : SimulatedBroker :=
  let exit_plan := position.exit_plan
  let tpHit := match exit_plan.take_profit with
    | some tp => decide (current_price ≥ tp)
    | none => false
  if tpHit then
    (execute_close br symbol current_price timestamp
      (some (.takeProfit current_price))).1
  else
    match exit_plan.invalidation_condition with
    | some cond =>
      if cond ≠ "" ∧ evaluate_invalidation cond current_price then
        (execute_close br symbol current_price timestamp
          (some (.invalidation cond))).1
      else br
    | none => br

/-- `SimulatedBroker._check_exit_triggers`: stop-loss (`≤`) first, then
take-profit and invalidation (`check_exit_triggers_tp`). The close's
message is discarded, as in the source. -/
def check_exit_triggers (br : SimulatedBroker) (symbol : String)
    (position : SimulatedPosition) (current_price : ℚ) (timestamp : DateTime) :
    SimulatedBroker :=
  let exit_plan := position.exit_plan
  match exit_plan.stop_loss with
  | some sl =>
    if current_price ≤ sl then
      (execute_close br symbol current_price timestamp
        (some (.stopLoss current_price))).1
    else check_exit_triggers_tp br symbol position current_price timestamp
  | none => check_exit_triggers_tp br symbol position current_price timestamp

/-- One iteration of the `mark_to_market` loop for a symbol captured in the
initial `list(positions.items())` snapshot: refresh the mark price, then
check exit triggers. -/
def markToMarketStep (snapshots : List (String × ℚ)) (timestamp : DateTime)
    (br : SimulatedBroker) (symbol : String) : SimulatedBroker :=
  match lookupKey snapshots symbol with
  | none => br
  | some current_price =>
    match lookupKey br.portfolio.positions symbol with
    | none => br
    | some position =>
      let position := { position with current_price := current_price }
      let br := { br with portfolio := { br.portfolio with
          positions := setKey br.portfolio.positions symbol position } }
      check_exit_triggers br symbol position current_price timestamp

/-- `SimulatedBroker.mark_to_market`. -/
def mark_to_market (br : SimulatedBroker) (snapshots : List (String × ℚ))
    (timestamp : DateTime) : SimulatedBroker :=
  let symbols := br.portfolio.positions.map Prod.fst
  let br := symbols.foldl (markToMarketStep snapshots timestamp) br
  { br with portfolio := { br.portfolio with updated_at := timestamp } }

/-- `SimulatedBroker.process_pending_feedback`: await the stored coroutine
(delivering its exit event to the tracker and feedback engine) and clear
the slot. Returns the delivered events. -/
def process_pending_feedback (br : SimulatedBroker) :
    SimulatedBroker × List ExitEvent :=
  match br.pending_exit_event with
  | some event => ({ br with pending_exit_event := none }, [event])
  | none => (br, [])

/-- The `EvaluationLogEntry` that `execute` appends for a decision with a
valid price (`executed` starts `false`; `decision.confidence or 0.0` etc.
coincide with `getD` since the fallbacks equal the falsy values). -/
def evalEntryFor (decision : DecisionPayload) (current_price : ℚ)
    (timestamp : DateTime) (system_prompt user_payload : String)
    (tool_payload_json : Option String) : EvaluationLogEntry :=
  { timestamp := timestamp, symbol := decision.symbol
    action := decision.action.valueUpper
    confidence := decision.confidence.getD 0
    size_pct := decision.size_pct.getD 0
    rationale := decision.rationale.getD ""
    price := current_price, executed := false
    chain_of_thought := decision.chain_of_thought.getD ""
    system_prompt := system_prompt, user_payload := user_payload
    tool_payload_json := tool_payload_json }

/-- Append one entry to the portfolio's evaluation log
(`self.portfolio.evaluation_log.append(…)`). -/
def pushEval (br : SimulatedBroker) (e : EvaluationLogEntry) : SimulatedBroker :=
  { br with portfolio := { br.portfolio with
      evaluation_log := br.portfolio.evaluation_log ++ [e] } }

/-- `_mark_evaluation_executed` lifted to the broker state. -/
def markExecBroker (br : SimulatedBroker) (symbol : String) (ts : DateTime) :
    SimulatedBroker :=
  { br with portfolio := { br.portfolio with
      evaluation_log :=
        mark_evaluation_executed br.portfolio.evaluation_log symbol ts } }

/-- The per-decision body of `SimulatedBroker.execute` (the loop body): the
snapshot lookup and price check, the evaluation-log append, slippage, and
the dispatch on the action (with `_mark_evaluation_executed` after
BUY/SELL/CLOSE, skipped when `_execute_buy` raises). `market_snapshots` is
typed `Dict[str, float]`, so the source's defensive `is None` check on the
price is unreachable and the invalid-price branch is exactly `price ≤ 0`. -/
def executeDecision (snapshots : List (String × ℚ)) (timestamp : DateTime)
    (system_prompt user_payload : String) (tool_payload_json : Option String)
    (br : SimulatedBroker) (decision : DecisionPayload) :
    SimulatedBroker × ExecMessage :=
  let symbol := decision.symbol
  match lookupKey snapshots symbol with
  | none => (br, .noMarketData symbol)
  | some current_price =>
    if current_price ≤ 0 then (br, .invalidPrice symbol current_price)
    else
      let br := pushEval br
        (evalEntryFor decision current_price timestamp system_prompt
          user_payload tool_payload_json)
      let slippage_factor := br.max_slippage_bps / 10000
      let fill_price :=
        match decision.action with
        | .buy => current_price * (1 + slippage_factor)
        | .sell => current_price * (1 - slippage_factor)
        | _ => current_price
      match decision.action with
      | .buy =>
        match execute_buy br decision fill_price timestamp with
        | (br, .ok msg) => (markExecBroker br symbol timestamp, msg)
        | (br, .raised) => (br, .errorExecuting .buy symbol)
      | .sell =>
        let (br, msg) := execute_sell br decision fill_price timestamp
        (markExecBroker br symbol timestamp, msg)
      | .close =>
        let (br, msg) := execute_close br symbol fill_price timestamp none
        (markExecBroker br symbol timestamp, msg)
      | .hold => execute_hold br decision current_price
      | .no_entry => execute_no_entry br decision current_price

/-- `SimulatedBroker.execute`: fold the loop body over the decisions,
collect the messages, and stamp `updated_at`. -/
def execute (br : SimulatedBroker) (decisions : List DecisionPayload)
    (snapshots : List (String × ℚ)) (timestamp : DateTime)
    (system_prompt : String := "") (user_payload : String := "")
    (tool_payload_json : Option String := none) :
    SimulatedBroker × List ExecMessage :=
  let step := fun (acc : SimulatedBroker × List ExecMessage) d =>
    let r := executeDecision snapshots timestamp system_prompt user_payload
      tool_payload_json acc.1 d
    (r.1, acc.2 ++ [r.2])
  let result := decisions.foldl step (br, [])
  ({ result.1 with portfolio :=
      { result.1.portfolio with updated_at := timestamp } },
   result.2)

/-!
Serialization (`to_dict` / `from_dict` in `state.py`). A `…Dict` structure
models the Python dict a `to_dict` produces: its field set is the key set
written by `to_dict`. Keys that `from_dict` reads with `dict.get` and a
default are `Option`-valued (`.get` conflates a missing key with a stored
`None`, so one `Option` layer is the faithful view); keys read by direct
indexing (a `KeyError` on absence) are plain. Timestamps are serialized
with `datetime.isoformat` and read back with `fromisoformat`, an exact
inverse pair on naive datetimes, modelled by storing the instant itself.
-/

/-- The dict written by `SimulatedPosition.to_dict`. -/
structure SimulatedPositionDict where
  symbol : String
  quantity : ℚ
  entry_price : ℚ
  entry_timestamp : DateTime
  current_price : ℚ
  confidence : Option ℚ
  leverage : Option ℚ
  exit_plan : Option ExitPlan
deriving Repr, DecidableEq

/-- `SimulatedPosition.to_dict`. -/
def SimulatedPosition.to_dict (p : SimulatedPosition) : SimulatedPositionDict :=
  { symbol := p.symbol, quantity := p.quantity, entry_price := p.entry_price
    entry_timestamp := p.entry_timestamp, current_price := p.current_price
    confidence := some p.confidence, leverage := some p.leverage
    exit_plan := some { stop_loss := p.exit_plan.stop_loss
                        take_profit := p.exit_plan.take_profit
                        invalidation_condition := p.exit_plan.invalidation_condition } }

/-- `SimulatedPosition.from_dict`. -/
def SimulatedPosition.from_dict (d : SimulatedPositionDict) : SimulatedPosition :=
  let exit_plan_data := d.exit_plan.getD {}
  { symbol := d.symbol, quantity := d.quantity, entry_price := d.entry_price
    entry_timestamp := d.entry_timestamp, current_price := d.current_price
    confidence := d.confidence.getD 0, leverage := d.leverage.getD 1
    exit_plan := { stop_loss := exit_plan_data.stop_loss
                   take_profit := exit_plan_data.take_profit
                   invalidation_condition := exit_plan_data.invalidation_condition } }

/-- The dict written by `EvaluationLogEntry.to_dict`. -/
structure EvaluationLogEntryDict where
  timestamp : DateTime
  symbol : String
  action : String
  confidence : Option ℚ
  size_pct : Option ℚ
  rationale : Option String
  price : Option ℚ
  executed : Option Bool
  chain_of_thought : Option String
  system_prompt : Option String
  user_payload : Option String
  tool_payload_json : Option String
deriving Repr, DecidableEq

/-- `EvaluationLogEntry.to_dict`. -/
def EvaluationLogEntry.to_dict (e : EvaluationLogEntry) : EvaluationLogEntryDict :=
  { timestamp := e.timestamp, symbol := e.symbol, action := e.action
    confidence := some e.confidence, size_pct := some e.size_pct
    rationale := some e.rationale, price := some e.price
    executed := some e.executed, chain_of_thought := some e.chain_of_thought
    system_prompt := some e.system_prompt, user_payload := some e.user_payload
    tool_payload_json := e.tool_payload_json }

/-- `EvaluationLogEntry.from_dict`. -/
def EvaluationLogEntry.from_dict (d : EvaluationLogEntryDict) : EvaluationLogEntry :=
  { timestamp := d.timestamp, symbol := d.symbol, action := d.action
    confidence := d.confidence.getD 0, size_pct := d.size_pct.getD 0
    rationale := d.rationale.getD "", price := d.price.getD 0
    executed := d.executed.getD false
    chain_of_thought := d.chain_of_thought.getD ""
    system_prompt := d.system_prompt.getD ""
    user_payload := d.user_payload.getD ""
    tool_payload_json := d.tool_payload_json }

/-- The dict written by `TradeLogEntry.to_dict`. -/
structure TradeLogEntryDict where
  timestamp : DateTime
  symbol : String
  action : String
  price : ℚ
  quantity : ℚ
  realized_pnl : Option ℚ
  reason : Option CloseReason
deriving Repr, DecidableEq

/-- `TradeLogEntry.to_dict`. -/
def TradeLogEntry.to_dict (e : TradeLogEntry) : TradeLogEntryDict :=
  { timestamp := e.timestamp, symbol := e.symbol, action := e.action
    price := e.price, quantity := e.quantity
    realized_pnl := some e.realized_pnl, reason := some e.reason }

/-- `TradeLogEntry.from_dict`. -/
def TradeLogEntry.from_dict (d : TradeLogEntryDict) : TradeLogEntry :=
  { timestamp := d.timestamp, symbol := d.symbol, action := d.action
    price := d.price, quantity := d.quantity
    realized_pnl := d.realized_pnl.getD 0, reason := d.reason.getD (.text "") }

/-- The dict written by `ClosedPosition.to_dict`. -/
structure ClosedPositionDict where
  symbol : String
  quantity : ℚ
  entry_price : ℚ
  exit_price : ℚ
  entry_timestamp : DateTime
  exit_timestamp : DateTime
  realized_pnl : Option ℚ
  realized_pnl_pct : Option ℚ
  leverage : Option ℚ
  reason : Option CloseReason
deriving Repr, DecidableEq

/-- `ClosedPosition.to_dict`. -/
def ClosedPosition.to_dict (c : ClosedPosition) : ClosedPositionDict :=
  { symbol := c.symbol, quantity := c.quantity, entry_price := c.entry_price
    exit_price := c.exit_price, entry_timestamp := c.entry_timestamp
    exit_timestamp := c.exit_timestamp, realized_pnl := some c.realized_pnl
    realized_pnl_pct := some c.realized_pnl_pct, leverage := some c.leverage
    reason := some c.reason }

/-- `ClosedPosition.from_dict`. -/
def ClosedPosition.from_dict (d : ClosedPositionDict) : ClosedPosition :=
  { symbol := d.symbol, quantity := d.quantity, entry_price := d.entry_price
    exit_price := d.exit_price, entry_timestamp := d.entry_timestamp
    exit_timestamp := d.exit_timestamp, realized_pnl := d.realized_pnl.getD 0
    realized_pnl_pct := d.realized_pnl_pct.getD 0
    leverage := d.leverage.getD 1, reason := d.reason.getD (.text "") }

/-- The dict written by `SimulatedPortfolio.to_dict`. -/
structure SimulatedPortfolioDict where
  portfolio_id : String
  starting_cash : ℚ
  current_cash : ℚ
  positions : Option (List (String × SimulatedPositionDict))
  trade_log : Option (List TradeLogEntryDict)
  evaluation_log : Option (List EvaluationLogEntryDict)
  closed_positions : Option (List ClosedPositionDict)
  created_at : DateTime
  updated_at : DateTime
deriving Repr, DecidableEq

/-- `SimulatedPortfolio.to_dict`. -/
def SimulatedPortfolio.to_dict (pf : SimulatedPortfolio) : SimulatedPortfolioDict :=
  { portfolio_id := pf.portfolio_id, starting_cash := pf.starting_cash
    current_cash := pf.current_cash
    positions := some (pf.positions.map (fun kv => (kv.1, kv.2.to_dict)))
    trade_log := some (pf.trade_log.map TradeLogEntry.to_dict)
    evaluation_log := some (pf.evaluation_log.map EvaluationLogEntry.to_dict)
    closed_positions := some (pf.closed_positions.map ClosedPosition.to_dict)
    created_at := pf.created_at, updated_at := pf.updated_at }

/-- `SimulatedPortfolio.from_dict`. -/
def SimulatedPortfolio.from_dict (d : SimulatedPortfolioDict) : SimulatedPortfolio :=
  { portfolio_id := d.portfolio_id, starting_cash := d.starting_cash
    current_cash := d.current_cash
    positions := (d.positions.getD []).map
      (fun kv => (kv.1, SimulatedPosition.from_dict kv.2))
    trade_log := (d.trade_log.getD []).map TradeLogEntry.from_dict
    evaluation_log := (d.evaluation_log.getD []).map EvaluationLogEntry.from_dict
    closed_positions := (d.closed_positions.getD []).map ClosedPosition.from_dict
    created_at := d.created_at, updated_at := d.updated_at }

/-- One public broker operation, as invoked by the scheduler tick. -/
inductive BrokerOp where
  | exec (decisions : List DecisionPayload) (snapshots : List (String × ℚ))
      (timestamp : DateTime) (system_prompt user_payload : String)
      (tool_payload_json : Option String)
  | mtm (snapshots : List (String × ℚ)) (timestamp : DateTime)

/-- Apply one broker operation. -/
def applyOp (br : SimulatedBroker) : BrokerOp → SimulatedBroker
  | .exec ds snaps ts sp up tpj => (execute br ds snaps ts sp up tpj).1
  | .mtm snaps ts => mark_to_market br snaps ts

/-- A portfolio reachable from `create_initial_state` by a sequence of
`execute` / `mark_to_market` calls on some `SimulatedBroker`. -/
def ReachablePortfolio (pf : SimulatedPortfolio) : Prop :=
  ∃ (pid : String) (cash : ℚ) (now : DateTime) (slippage limit : ℚ)
    (tracker : Bool) (ops : List BrokerOp),
    pf = (ops.foldl applyOp
      { portfolio := create_initial_state pid cash now
        max_slippage_bps := slippage
        position_size_limit_pct := limit
        outcome_tracker := tracker
        pending_exit_event := none }).portfolio

/-!
Indicator calculations (`indicators/calculations.py`). A pandas Series of
floats is a `List ℚ`; where NaN can occur (the head of a `diff`) the series
is a `List (Option ℚ)` with `none` for NaN.
-/

/-- `ewm(adjust=False).mean()` continued from a seeded state. -/
def ewmFrom (α : ℚ) (s : ℚ) : List ℚ → List ℚ
  | [] => []
  | x :: xs =>
    let s' := (1 - α) * s + α * x
    s' :: ewmFrom α s' xs

/-- `ewm(adjust=False).mean()` on a NaN-free series: seeded at the head. -/
def ewmMean (α : ℚ) : List ℚ → List ℚ
  | [] => []
  | x :: xs => x :: ewmFrom α x xs

/-- `ewm(adjust=False).mean()` on a series that may carry NaN: a NaN input
does not update the mean (the previous mean is carried; before any value is
seen the output stays NaN). In `_rsi` the only NaN is the head of the
`diff`, for which pandas behaves exactly this way. -/
def ewmMeanNa (α : ℚ) (state : Option ℚ) : List (Option ℚ) → List (Option ℚ)
  | [] => []
  | none :: xs =>
    (match state with
     | none => none :: ewmMeanNa α none xs
     | some s => some s :: ewmMeanNa α (some s) xs)
  | some x :: xs =>
    match state with
    | none => some x :: ewmMeanNa α (some x) xs
    | some s =>
      let s' := (1 - α) * s + α * x
      some s' :: ewmMeanNa α (some s') xs

/-- `series.diff()`: NaN at index 0, consecutive differences after. -/
def diffFrom (prev : ℚ) : List ℚ → List (Option ℚ)
  | [] => []
  | x :: xs => some (x - prev) :: diffFrom x xs

/-- See `diffFrom`. -/
def diffList : List ℚ → List (Option ℚ)
  | [] => []
  | x :: xs => none :: diffFrom x xs

/-- `_ema`: `ewm(span=span, adjust=False)`, i.e. α = 2/(span+1). -/
def _ema (series : List ℚ) (span : ℕ) : List ℚ :=
  ewmMean (2 / ((span : ℚ) + 1)) series

/-- `delta.clip(lower=0.0)` of `_rsi`. -/
def rsiGain (series : List ℚ) : List (Option ℚ) :=
  (diffList series).map (Option.map (fun d => max d 0))

/-- `(-delta.clip(upper=0.0)).abs()` of `_rsi`. -/
def rsiLoss (series : List ℚ) : List (Option ℚ) :=
  (diffList series).map (Option.map (fun d => |(-(min d 0))|))

/-- `gain.ewm(alpha=1/length, adjust=False).mean()` of `_rsi`. -/
def rsiAvgGain (series : List ℚ) (length : ℕ) : List (Option ℚ) :=
  ewmMeanNa (1 / (length : ℚ)) none (rsiGain series)

/-- `loss.ewm(alpha=1/length, adjust=False).mean()` of `_rsi`. -/
def rsiAvgLoss (series : List ℚ) (length : ℕ) : List (Option ℚ) :=
  ewmMeanNa (1 / (length : ℚ)) none (rsiLoss series)

/-- One point of `rs = avg_gain / avg_loss.replace(0.0, np.nan)`: a zero
average loss is first replaced by NaN, and any division involving NaN is
NaN. -/
def rsPoint (g l : Option ℚ) : Option ℚ :=
  match l with
  | none => none
  | some lv => if lv = 0 then none else g.map (fun gv => gv / lv)

/-- One point of `rsi = 100 - (100 / (1 + rs))` followed by
`.fillna(50.0)`. -/
def rsiPoint (r : Option ℚ) : ℚ :=
  match r with
  | none => 50
  | some rv => 100 - 100 / (1 + rv)

/-- `_rsi`: the full RSI series (after `fillna(50.0)`). -/
def _rsi (series : List ℚ) (length : ℕ) : List ℚ :=
  if series.isEmpty then []
  else
    (List.zipWith rsPoint (rsiAvgGain series length) (rsiAvgLoss series length)).map
      rsiPoint

/-- `_last_value` on a NaN-free series (all series the snapshot reads it
from are NaN-free: `fillna` ran, or the inputs carried no NaN): the last
value, `0.0` for an empty series. -/
def _last_value (series : List ℚ) : ℚ :=
  (series.getLast?).getD 0

/-- `IndicatorCalculations.rsi_period`. -/
def rsi_period : ℕ := 14

/-- `IndicatorCalculations.ema_fast_period`. -/
def ema_fast_period : ℕ := 12

/-- `IndicatorCalculations.ema_slow_period`. -/
def ema_slow_period : ℕ := 26

/-- `IndicatorCalculations.signal_period`. -/
def signal_period : ℕ := 9

/-- `IndicatorCalculations.rsi`: `period or self.rsi_period` (Python `or`:
`None` and `0` fall back to the class default 14), then the last `_rsi`
value. -/
def rsi (closes : List ℚ) (period : Option ℕ := none) : ℚ :=
  let target_period :=
    match period with
    | none => rsi_period
    | some p => if p = 0 then rsi_period else p
  _last_value (_rsi closes target_period)

/-- The true-range series of `_atr`: `high - low`, `|high - prev_close|`,
`|low - prev_close|` row-wise maximum; in the first row `prev_close` is NaN
and pandas' `max` skips it, leaving `high - low`. `trFrom` handles the rows
with a previous close. -/
def trFrom (prev : ℚ) : List (ℚ × ℚ × ℚ) → List ℚ
  | [] => []
  | (h, l, c) :: rest =>
    max (h - l) (max |h - prev| |l - prev|) :: trFrom c rest

/-- See `trFrom`. -/
def trueRanges : List (ℚ × ℚ × ℚ) → List ℚ
  | [] => []
  | (h, l, c) :: rest => (h - l) :: trFrom c rest

/-- `_atr`: true-range `ewm(alpha=1/length, adjust=False)` mean. -/
def _atr (highs lows closes : List ℚ) (length : ℕ) : List ℚ :=
  if closes.isEmpty then []
  else ewmMean (1 / (length : ℚ)) (trueRanges (highs.zip (lows.zip closes)))

/-- One resampled OHLCV bar (a row of the `bars` DataFrame, with its
datetime index). -/
structure BarRow where
  index : DateTime
  open_price : ℚ
  high_price : ℚ
  low_price : ℚ
  close_price : ℚ
  volume : ℚ
deriving Repr, DecidableEq

/-- `bars.sort_index()` (stable sort by the datetime index; the inputs the
source feeds in are resample outputs and therefore already sorted). -/
def sortIndex (bars : List BarRow) : List BarRow :=
  bars.mergeSort (fun a b => decide (a.index ≤ b.index))

/-- `rolling(window, min_periods=1).mean()`: mean of the trailing window
(`seen` is the reversed prefix already consumed). -/
def rollingMeanAux (window : ℕ) (seen : List ℚ) : List ℚ → List ℚ
  | [] => []
  | x :: xs =>
    let wnd := (x :: seen).take window
    (wnd.sum / (wnd.length : ℚ)) :: rollingMeanAux window (x :: seen) xs

/-- See `rollingMeanAux`. -/
def rollingMean (window : ℕ) (l : List ℚ) : List ℚ :=
  rollingMeanAux window [] l

/-- `bars["volume"] / rolling_avg_volume` followed by
`.replace([inf, -inf], 0.0).fillna(0.0)`: division by a zero mean is the
only source of `inf`/NaN here, so those rows become 0. -/
def volumeRatioList (volumes : List ℚ) (window : ℕ) : List ℚ :=
  List.zipWith (fun v m => if m = 0 then 0 else v / m) volumes
    (rollingMean window volumes)

/-- `IndicatorSnapshot` (the fields `_compute_snapshot_from_bars` fills;
`volatility` is a rolling standard deviation — a square root, not a
rational — and `higher_timeframe` is attached by callers, so neither is
carried in this rational-valued model). -/
structure IndicatorSnapshot where
  symbol : String
  price : ℚ
  ema20 : ℚ
  macd : ℚ
  macd_signal : ℚ
  macd_histogram : ℚ
  rsi7 : ℚ
  rsi14 : ℚ
  atr3 : ℚ
  atr14 : ℚ
  volume : ℚ
  volume_ratio : ℚ
  mid_prices : List ℚ
  ema20_series : List ℚ
  macd_series : List ℚ
  macd_histogram_series : List ℚ
  rsi7_series : List ℚ
  rsi14_series : List ℚ
  generated_at : DateTime
deriving Repr, DecidableEq

/-- `AggregatedBar`. -/
structure AggregatedBar where
  bucket_start : DateTime
  bucket_end : DateTime
  open_price : ℚ
  high_price : ℚ
  low_price : ℚ
  close_price : ℚ
  volume : ℚ
deriving Repr, DecidableEq

/-- `IndicatorCalculations._compute_snapshot_from_bars` (with
`timeframe_seconds` added to the index instant for the bucket end, mirroring
`bucket_start + timedelta(seconds=timeframe_seconds)`). -/
def _compute_snapshot_from_bars (symbol : String) (bars : List BarRow)
    (timeframe_seconds : Int) (volume_ratio_period : ℕ) :
    Option (IndicatorSnapshot × AggregatedBar) :=
  if bars.isEmpty then none
  else
    let bars := sortIndex bars
    let volumes := bars.map (fun b => b.volume)
    let volume_ratio := volumeRatioList volumes volume_ratio_period
    let lookback := max volume_ratio_period 20
    if bars.length < lookback then none
    else
      let close_series := bars.map (fun b => b.close_price)
      let highs := bars.map (fun b => b.high_price)
      let lows := bars.map (fun b => b.low_price)
      let ema20_series := _ema close_series 20
      let macd_line_series :=
        List.zipWith (fun a b => a - b) (_ema close_series ema_fast_period)
          (_ema close_series ema_slow_period)
      let macd_signal_series := _ema macd_line_series signal_period
      let macd_hist_series :=
        List.zipWith (fun a b => a - b) macd_line_series macd_signal_series
      let rsi7_series := _rsi close_series 7
      let rsi14_series := _rsi close_series 14
      let atr3_series := _atr highs lows close_series 3
      let atr14_series := _atr highs lows close_series 14
      match bars.getLast? with
      | none => none
      | some current =>
        let bucket_start := current.index
        let bucket_end := bucket_start + timeframe_seconds
        some
          ({ symbol := symbol
             price := current.close_price
             ema20 := _last_value ema20_series
             macd := _last_value macd_line_series
             macd_signal := _last_value macd_signal_series
             macd_histogram := _last_value macd_hist_series
             rsi7 := _last_value rsi7_series
             rsi14 := _last_value rsi14_series
             atr3 := _last_value atr3_series
             atr14 := _last_value atr14_series
             volume := current.volume
             volume_ratio := (volume_ratio.getLast?).getD 0
             mid_prices := close_series
             ema20_series := ema20_series
             macd_series := macd_line_series
             macd_histogram_series := macd_hist_series
             rsi7_series := rsi7_series
             rsi14_series := rsi14_series
             generated_at := bucket_end },
           { bucket_start := bucket_start
             bucket_end := bucket_end
             open_price := current.open_price
             high_price := current.high_price
             low_price := current.low_price
             close_price := current.close_price
             volume := current.volume })

/-!
Feedback engine deduplication (`feedback/feedback_engine.py`).
-/

/-- `FeedbackLoopEngine` configuration (`__init__`): note the hard-coded
`duplicate_threshold = 0.8`. -/
structure FeedbackLoopEngine where
  max_rules_in_prompt : ℕ
  max_history_trades : ℕ
  min_rule_length : ℕ
  max_rule_length : ℕ
  duplicate_threshold : ℚ
deriving Repr, DecidableEq

/-- `FeedbackLoopEngine.__init__` (settings fallbacks 8 and 5). -/
def mkFeedbackLoopEngine (max_rules_in_prompt : ℕ := 8)
    (max_history_trades : ℕ := 5) : FeedbackLoopEngine :=
  { max_rules_in_prompt := max_rules_in_prompt
    max_history_trades := max_history_trades
    min_rule_length := 10
    max_rule_length := 200
    duplicate_threshold := 4 / 5 }

/-- Worker for Python `str.split()` with no separator: split on runs of
whitespace, discarding empty tokens; `cur` holds the reversed current
token. -/
def splitWsAux : List Char → List Char → List String
  | cur, [] => if cur.isEmpty then [] else [String.mk cur.reverse]
  | cur, c :: cs =>
    if c.isWhitespace then
      if cur.isEmpty then splitWsAux [] cs
      else String.mk cur.reverse :: splitWsAux [] cs
    else splitWsAux (c :: cur) cs

/-- Python `text.lower().split()`: case-fold, split on whitespace runs,
drop empty tokens. -/
def pyWords (t : String) : List String :=
  splitWsAux [] (t.toList.map Char.toLower)

/-- The word set `set(text.lower().split())`. -/
def wordFinset (t : String) : Finset String :=
  (pyWords t).toFinset

/-- `FeedbackLoopEngine._text_similarity`: Jaccard index of the two word
sets, `0.0` for an empty union. -/
def _text_similarity (text1 text2 : String) : ℚ :=
  let words1 := wordFinset text1
  let words2 := wordFinset text2
  let inter := words1 ∩ words2
  let union := words1 ∪ words2
  if union = ∅ then 0 else (inter.card : ℚ) / (union.card : ℚ)

/-- `repositories.fetch_active_rules(limit)`: the stored active rules,
newest first, truncated to `limit`. -/
def fetch_active_rules (stored_active_rules : List String) (limit : ℕ) :
    List String :=
  stored_active_rules.take limit

/-- `FeedbackLoopEngine._is_duplicate_rule`: fetch up to 50 recent active
rules and reject when any has similarity strictly above the threshold. -/
def FeedbackLoopEngine.is_duplicate_rule (e : FeedbackLoopEngine)
    (stored_active_rules : List String) (new_rule : String) : Bool :=
  (fetch_active_rules stored_active_rules 50).any
    (fun existing_rule =>
      decide (_text_similarity new_rule existing_rule > e.duplicate_threshold))

/-!
Helper lemmas about the association-list dict operations and the
evaluation-log marking.
-/

theorem popKey_eq_none {α : Type} (l : List (String × α)) (k : String)
    (h : lookupKey l k = none) : popKey l k = none := by
  induction l with
  | nil => rfl
  | cons hd tl ih =>
    obtain ⟨s, v⟩ := hd
    by_cases hs : s = k
    · simp [lookupKey, hs] at h
    · simp only [lookupKey, if_neg hs] at h
      simp [popKey, if_neg hs, ih h]

theorem popKey_of_lookup {α : Type} (l : List (String × α)) (k : String)
    (v : α) (h : lookupKey l k = some v) :
    ∃ rest, popKey l k = some (v, rest) := by
  induction l with
  | nil => simp [lookupKey] at h
  | cons hd tl ih =>
    obtain ⟨s, w⟩ := hd
    by_cases hs : s = k
    · simp only [lookupKey, if_pos hs] at h
      exact ⟨tl, by cases h; simp [popKey, hs]⟩
    · simp only [lookupKey, if_neg hs] at h
      obtain ⟨rest, hrest⟩ := ih h
      exact ⟨(s, w) :: rest, by simp [popKey, if_neg hs, hrest]⟩

theorem markLastMatching_cons_match (symbol : String) (ts : DateTime)
    (e : EvaluationLogEntry) (rest : List EvaluationLogEntry)
    (h1 : e.symbol = symbol) (h2 : e.timestamp = ts) :
    markLastMatching symbol ts (e :: rest) = { e with executed := true } :: rest := by
  simp [markLastMatching, h1, h2]

theorem mark_eval_append (log : List EvaluationLogEntry)
    (e : EvaluationLogEntry) (symbol : String) (ts : DateTime)
    (h1 : e.symbol = symbol) (h2 : e.timestamp = ts) :
    mark_evaluation_executed (log ++ [e]) symbol ts
      = log ++ [{ e with executed := true }] := by
  unfold mark_evaluation_executed
  rw [List.reverse_append]
  simp only [List.reverse_cons, List.reverse_nil, List.nil_append,
    List.singleton_append]
  rw [markLastMatching_cons_match symbol ts e log.reverse h1 h2]
  simp

theorem execute_close_outcome_tracker (br : SimulatedBroker) (s : String)
    (f : ℚ) (ts : DateTime) (r : Option CloseReason) :
    (execute_close br s f ts r).1.outcome_tracker = br.outcome_tracker := by
  unfold execute_close
  split <;> rfl

theorem execute_close_pending_set (br : SimulatedBroker) (s : String)
    (f : ℚ) (ts : DateTime) (r : Option CloseReason) (v : SimulatedPosition)
    (htr : br.outcome_tracker = true)
    (h : lookupKey br.portfolio.positions s = some v) :
    (execute_close br s f ts r).1.pending_exit_event
      = some ⟨s, f, "CLOSE", reasonOr r "Position closed"⟩ := by
  obtain ⟨rest, hpop⟩ := popKey_of_lookup _ _ _ h
  unfold execute_close
  rw [hpop]
  simp [htr]

/-- Claim C9: the broker keeps a single `_pending_exit_event` slot. Each
successful close overwrites it (the first conjunct shows the first close's
event is stored, the second that the second close replaced it), and
`process_pending_feedback` then delivers only the most recently closed
position's exit event to the tracker, dropping the earlier one. -/
theorem pending_exit_single_slot (br : SimulatedBroker) (s1 s2 : String)
    (f1 f2 : ℚ) (ts1 ts2 : DateTime) (r1 r2 : Option CloseReason)
    (v1 v2 : SimulatedPosition)
    (htr : br.outcome_tracker = true)
    (h1 : lookupKey br.portfolio.positions s1 = some v1)
    (h2 : lookupKey (execute_close br s1 f1 ts1 r1).1.portfolio.positions s2
      = some v2) :
    (execute_close br s1 f1 ts1 r1).1.pending_exit_event
      = some ⟨s1, f1, "CLOSE", reasonOr r1 "Position closed"⟩
    ∧ (execute_close (execute_close br s1 f1 ts1 r1).1 s2 f2 ts2 r2).1.pending_exit_event
      = some ⟨s2, f2, "CLOSE", reasonOr r2 "Position closed"⟩
    ∧ process_pending_feedback
        (execute_close (execute_close br s1 f1 ts1 r1).1 s2 f2 ts2 r2).1
      = ({ (execute_close (execute_close br s1 f1 ts1 r1).1 s2 f2 ts2 r2).1 with
            pending_exit_event := none },
         [⟨s2, f2, "CLOSE", reasonOr r2 "Position closed"⟩]) := by
  have htr1 : (execute_close br s1 f1 ts1 r1).1.outcome_tracker = true := by
    rw [execute_close_outcome_tracker]; exact htr
  have hpend2 := execute_close_pending_set (execute_close br s1 f1 ts1 r1).1
    s2 f2 ts2 r2 v2 htr1 h2
  refine ⟨execute_close_pending_set br s1 f1 ts1 r1 v1 htr h1, hpend2, ?_⟩
  unfold process_pending_feedback
  rw [hpend2]

/-- Witness for C9 on a concrete two-position broker: after closing BTC and
then ETH without processing feedback in between, only the ETH exit event is
delivered. -/
theorem pending_exit_single_slot_witness :
    (process_pending_feedback
        (execute_close
          (execute_close
            { portfolio :=
                { portfolio_id := "sim", starting_cash := 1000
                  current_cash := 1000
                  positions :=
                    [("BTC", { symbol := "BTC", quantity := 1
                               entry_price := 100, entry_timestamp := 0
                               current_price := 100 }),
                     ("ETH", { symbol := "ETH", quantity := 2
                               entry_price := 10, entry_timestamp := 0
                               current_price := 10 })]
                  created_at := 0, updated_at := 0 }
              outcome_tracker := true }
            "BTC" 110 1 none).1
          "ETH" 12 2 none).1).2
      = [⟨"ETH", 12, "CLOSE", .text "Position closed"⟩] := by
  have h := pending_exit_single_slot
    { portfolio :=
        { portfolio_id := "sim", starting_cash := 1000, current_cash := 1000
          positions :=
            [("BTC", { symbol := "BTC", quantity := 1, entry_price := 100
                       entry_timestamp := 0, current_price := 100 }),
             ("ETH", { symbol := "ETH", quantity := 2, entry_price := 10
                       entry_timestamp := 0, current_price := 10 })]
          created_at := 0, updated_at := 0 }
      outcome_tracker := true }
    "BTC" "ETH" 110 12 1 2 none none
    { symbol := "BTC", quantity := 1, entry_price := 100
      entry_timestamp := 0, current_price := 100 }
    { symbol := "ETH", quantity := 2, entry_price := 10
      entry_timestamp := 0, current_price := 10 }
    rfl (by decide) (by decide)
  rw [h.2.2]
  rfl

/-- Claim C6: during mark-to-market's trigger check, a position whose
`stop_loss` is set closes at the mark price with a "Stop-loss …" reason
whenever `mark ≤ stop_loss` — equality included, and with no hypothesis on
`take_profit` or `invalidation_condition` (stop-loss is checked first). -/
theorem stop_loss_triggers_on_leq (br : SimulatedBroker) (symbol : String)
    (position pos' : SimulatedPosition)
    (rest : List (String × SimulatedPosition)) (current_price sl : ℚ)
    (ts : DateTime)
    (hsl : position.exit_plan.stop_loss = some sl)
    (hle : current_price ≤ sl)
    (hpop : popKey br.portfolio.positions symbol = some (pos', rest)) :
    (check_exit_triggers br symbol position current_price ts).portfolio.positions
      = rest
    ∧ ∃ c : ClosedPosition,
        (check_exit_triggers br symbol position current_price
            ts).portfolio.closed_positions
          = br.portfolio.closed_positions ++ [c]
        ∧ c.reason = .stopLoss current_price
        ∧ c.symbol = symbol
        ∧ c.exit_price = current_price
        ∧ c.quantity = pos'.quantity
        ∧ c.realized_pnl = pos'.quantity * (current_price - pos'.entry_price) := by
  have hstep : check_exit_triggers br symbol position current_price ts
      = (execute_close br symbol current_price ts
          (some (.stopLoss current_price))).1 := by
    unfold check_exit_triggers
    simp only [hsl, if_pos hle]
  rw [hstep]
  unfold execute_close
  rw [hpop]
  exact ⟨rfl, ⟨_, rfl, rfl, rfl, rfl, rfl, rfl⟩⟩

/-- Witness for C6 at a concrete input where the mark price *equals* the
stop-loss and the take-profit (90 ≤ 95) would also fire: the position is
closed with the stop-loss reason. -/
theorem stop_loss_triggers_on_leq_witness :
    (check_exit_triggers
        { portfolio :=
            { portfolio_id := "sim", starting_cash := 1000
              current_cash := 1000
              positions :=
                [("BTC", { symbol := "BTC", quantity := 1, entry_price := 100
                           entry_timestamp := 0, current_price := 95
                           exit_plan := { stop_loss := some 95
                                          take_profit := some 90 } })]
              created_at := 0, updated_at := 0 } }
        "BTC"
        { symbol := "BTC", quantity := 1, entry_price := 100
          entry_timestamp := 0, current_price := 95
          exit_plan := { stop_loss := some 95, take_profit := some 90 } }
        95 9).portfolio.positions = []
    ∧ ∃ c : ClosedPosition,
        (check_exit_triggers
            { portfolio :=
                { portfolio_id := "sim", starting_cash := 1000
                  current_cash := 1000
                  positions :=
                    [("BTC", { symbol := "BTC", quantity := 1
                               entry_price := 100
                               entry_timestamp := 0, current_price := 95
                               exit_plan := { stop_loss := some 95
                                              take_profit := some 90 } })]
                  created_at := 0, updated_at := 0 } }
            "BTC"
            { symbol := "BTC", quantity := 1, entry_price := 100
              entry_timestamp := 0, current_price := 95
              exit_plan := { stop_loss := some 95, take_profit := some 90 } }
            95 9).portfolio.closed_positions = [] ++ [c]
        ∧ c.reason = .stopLoss 95
        ∧ c.symbol = "BTC"
        ∧ c.exit_price = 95
        ∧ c.quantity = 1
        ∧ c.realized_pnl = 1 * (95 - 100) := by
  exact stop_loss_triggers_on_leq _ "BTC" _
    { symbol := "BTC", quantity := 1, entry_price := 100
      entry_timestamp := 0, current_price := 95
      exit_plan := { stop_loss := some 95, take_profit := some 90 } }
    [] 95 95 9 rfl (by norm_num) (by decide)

/-- The concrete position/broker used to exhibit the C1 cash-accounting
slip: quantity 1, entry 100, leverage 2, cash 1000. -/
def sampleClosePosition : SimulatedPosition :=
  { symbol := "BTC", quantity := 1, entry_price := 100, entry_timestamp := 0
    current_price := 100, leverage := 2 }

/-- See `sampleClosePosition`. -/
def sampleCloseBroker : SimulatedBroker :=
  { portfolio :=
      { portfolio_id := "sim", starting_cash := 1000, current_cash := 1000
        positions := [("BTC", sampleClosePosition)]
        created_at := 0, updated_at := 0 } }

/-- Claim C1 (code bug): closing the leverage-2 position (q=1, entry=100)
at fill 110 removes the position, records `realized_pnl = q·(f−e) = 10` in
both the trade log and the closed position, but credits cash with only
`margin_returned = q·f/L = 55` — not `q·f/L + realized_pnl = 65` as the
claim (and the source's own inline comment "Add margin + PnL back to
cash") requires. -/
theorem close_cash_omits_realized_pnl :
    (execute_close sampleCloseBroker "BTC" 110 1 none).1.portfolio.current_cash
      = 1000 + 55
    ∧ (execute_close sampleCloseBroker "BTC" 110 1
        none).1.portfolio.positions = []
    ∧ ((execute_close sampleCloseBroker "BTC" 110 1
        none).1.portfolio.closed_positions.map ClosedPosition.realized_pnl)
      = [10]
    ∧ ((execute_close sampleCloseBroker "BTC" 110 1
        none).1.portfolio.trade_log.map TradeLogEntry.realized_pnl) = [10]
    ∧ ((execute_close sampleCloseBroker "BTC" 110 1
        none).1.portfolio.closed_positions.length) = 1
    ∧ (1000 + 55 : ℚ) ≠ 1000 + 1 * 110 / 2 + 10 := by
  refine ⟨by norm_num [execute_close, sampleCloseBroker, sampleClosePosition,
    popKey, reasonOr],
    by rfl, by norm_num [execute_close, sampleCloseBroker,
      sampleClosePosition, popKey, reasonOr],
    by norm_num [execute_close, sampleCloseBroker, sampleClosePosition,
      popKey, reasonOr],
    by rfl, by norm_num⟩

/-!
Reduction lemmas for `executeDecision` and `execute`, shared by the
evaluation-log claims.
-/

theorem execute_buy_evalLog (br : SimulatedBroker) (d : DecisionPayload)
    (f : ℚ) (ts : DateTime) :
    (execute_buy br d f ts).1.portfolio.evaluation_log
      = br.portfolio.evaluation_log := by
  unfold execute_buy
  dsimp only
  split
  · rfl
  split
  · split
    · rfl
    · split
      · rfl
      · split <;> rfl
  · split
    · rfl
    · split
      · rfl
      · split <;> rfl

theorem execute_close_evalLog (br : SimulatedBroker) (s : String) (f : ℚ)
    (ts : DateTime) (r : Option CloseReason) :
    (execute_close br s f ts r).1.portfolio.evaluation_log
      = br.portfolio.evaluation_log := by
  unfold execute_close
  split <;> rfl

theorem execute_sell_evalLog (br : SimulatedBroker) (d : DecisionPayload)
    (f : ℚ) (ts : DateTime) :
    (execute_sell br d f ts).1.portfolio.evaluation_log
      = br.portfolio.evaluation_log := by
  unfold execute_sell
  split
  · exact execute_close_evalLog ..
  · rfl

theorem execute_hold_evalLog (br : SimulatedBroker) (d : DecisionPayload)
    (p : ℚ) :
    (execute_hold br d p).1.portfolio.evaluation_log
      = br.portfolio.evaluation_log := by
  unfold execute_hold
  split <;> rfl

@[simp] theorem pushEval_max_slippage_bps (br : SimulatedBroker)
    (e : EvaluationLogEntry) :
    (pushEval br e).max_slippage_bps = br.max_slippage_bps := rfl

@[simp] theorem pushEval_positions (br : SimulatedBroker)
    (e : EvaluationLogEntry) :
    (pushEval br e).portfolio.positions = br.portfolio.positions := rfl

@[simp] theorem pushEval_evalLog (br : SimulatedBroker)
    (e : EvaluationLogEntry) :
    (pushEval br e).portfolio.evaluation_log
      = br.portfolio.evaluation_log ++ [e] := rfl

theorem execute_buy_raised_iff (br : SimulatedBroker) (d : DecisionPayload)
    (f : ℚ) (ts : DateTime) :
    (execute_buy br d f ts).2 = BuyResult.raised ↔ f ≤ 0 := by
  unfold execute_buy
  dsimp only
  split
  · simp_all
  split
  · split
    · simp_all
    · split
      · simp_all
      · split <;> simp_all
  · split
    · simp_all
    · split
      · simp_all
      · split <;> simp_all

theorem executeDecision_no_data (br : SimulatedBroker) (d : DecisionPayload)
    (snaps : List (String × ℚ)) (ts : DateTime) (sp up : String)
    (tpj : Option String) (h : lookupKey snaps d.symbol = none) :
    executeDecision snaps ts sp up tpj br d = (br, .noMarketData d.symbol) := by
  unfold executeDecision
  dsimp only
  rw [h]

theorem executeDecision_invalid_price (br : SimulatedBroker)
    (d : DecisionPayload) (snaps : List (String × ℚ)) (ts : DateTime)
    (sp up : String) (tpj : Option String) (p : ℚ)
    (h : lookupKey snaps d.symbol = some p) (hle : p ≤ 0) :
    executeDecision snaps ts sp up tpj br d = (br, .invalidPrice d.symbol p) := by
  unfold executeDecision
  dsimp only
  rw [h]
  simp only [if_pos hle]

/-- The `executed` flag with which the single appended evaluation entry
ends up: BUY/SELL/CLOSE are marked executed unless `_execute_buy` raised
(non-positive fill), HOLD and NO_ENTRY never are. -/
def executedFlag (br : SimulatedBroker) (d : DecisionPayload) (price : ℚ) :
    Bool :=
  match d.action with
  | .buy => !(decide (price * (1 + br.max_slippage_bps / 10000) ≤ 0))
  | .sell => true
  | .close => true
  | .hold => false
  | .no_entry => false

theorem executeDecision_evalLog (br : SimulatedBroker) (d : DecisionPayload)
    (snaps : List (String × ℚ)) (ts : DateTime) (sp up : String)
    (tpj : Option String) (p : ℚ)
    (h : lookupKey snaps d.symbol = some p) (hpos : ¬ p ≤ 0) :
    (executeDecision snaps ts sp up tpj br d).1.portfolio.evaluation_log
      = br.portfolio.evaluation_log
        ++ [{ evalEntryFor d p ts sp up tpj with
              executed := executedFlag br d p }] := by
  have hmark : ∀ br' : SimulatedBroker,
      br'.portfolio.evaluation_log
        = br.portfolio.evaluation_log ++ [evalEntryFor d p ts sp up tpj] →
      (markExecBroker br' d.symbol ts).portfolio.evaluation_log
        = br.portfolio.evaluation_log
          ++ [{ evalEntryFor d p ts sp up tpj with executed := true }] := by
    intro br' hlog
    unfold markExecBroker
    dsimp only
    rw [hlog]
    exact mark_eval_append _ _ _ _ rfl rfl
  unfold executeDecision
  dsimp only
  rw [h]
  simp only [if_neg hpos]
  cases hact : d.action
  case buy =>
    simp only [hact, executedFlag, pushEval_max_slippage_bps]
    cases hbuy : execute_buy (pushEval br (evalEntryFor d p ts sp up tpj)) d
        (p * (1 + br.max_slippage_bps / 10000)) ts with
    | mk br1 res =>
      have hlog1 : br1.portfolio.evaluation_log
          = br.portfolio.evaluation_log ++ [evalEntryFor d p ts sp up tpj] := by
        have h2 := execute_buy_evalLog
          (pushEval br (evalEntryFor d p ts sp up tpj)) d
          (p * (1 + br.max_slippage_bps / 10000)) ts
        rw [hbuy] at h2
        simpa using h2
      have hraise := execute_buy_raised_iff
        (pushEval br (evalEntryFor d p ts sp up tpj)) d
        (p * (1 + br.max_slippage_bps / 10000)) ts
      rw [hbuy] at hraise
      cases res with
      | ok msg =>
        have hf : ¬ (p * (1 + br.max_slippage_bps / 10000) ≤ 0) := by
          simpa using hraise.not.mp (by simp)
        dsimp only
        rw [show (!decide (p * (1 + br.max_slippage_bps / 10000) ≤ 0)) = true
          from by simp [hf]]
        exact hmark br1 hlog1
      | raised =>
        have hf : p * (1 + br.max_slippage_bps / 10000) ≤ 0 := by
          simpa using hraise.mp rfl
        dsimp only
        rw [show (!decide (p * (1 + br.max_slippage_bps / 10000) ≤ 0)) = false
          from by simp [hf]]
        simpa using hlog1
  case sell =>
    simp only [hact, executedFlag, pushEval_max_slippage_bps]
    cases hsell : execute_sell (pushEval br (evalEntryFor d p ts sp up tpj)) d
        (p * (1 - br.max_slippage_bps / 10000)) ts with
    | mk br1 msg =>
      dsimp only
      apply hmark br1
      have h2 := execute_sell_evalLog
        (pushEval br (evalEntryFor d p ts sp up tpj)) d
        (p * (1 - br.max_slippage_bps / 10000)) ts
      rw [hsell] at h2
      simpa using h2
  case close =>
    simp only [hact, executedFlag]
    cases hclose : execute_close (pushEval br (evalEntryFor d p ts sp up tpj))
        d.symbol p ts none with
    | mk br1 msg =>
      dsimp only
      apply hmark br1
      have h2 := execute_close_evalLog
        (pushEval br (evalEntryFor d p ts sp up tpj)) d.symbol p ts none
      rw [hclose] at h2
      simpa using h2
  case hold =>
    simp only [hact, executedFlag]
    have h2 := execute_hold_evalLog
      (pushEval br (evalEntryFor d p ts sp up tpj)) d p
    simpa using h2
  case no_entry =>
    simp only [hact, executedFlag]
    rfl

theorem execute_singleton (br : SimulatedBroker) (d : DecisionPayload)
    (snaps : List (String × ℚ)) (ts : DateTime) (sp up : String)
    (tpj : Option String) :
    execute br [d] snaps ts sp up tpj
      = ({ (executeDecision snaps ts sp up tpj br d).1 with
            portfolio :=
              { (executeDecision snaps ts sp up tpj br d).1.portfolio with
                updated_at := ts } },
         [(executeDecision snaps ts sp up tpj br d).2]) := by
  unfold execute
  dsimp only [List.foldl]
  rfl

theorem executeDecision_close_no_pos (br : SimulatedBroker)
    (d : DecisionPayload) (snaps : List (String × ℚ)) (ts : DateTime)
    (sp up : String) (tpj : Option String) (p : ℚ)
    (h : lookupKey snaps d.symbol = some p) (hpos : ¬ p ≤ 0)
    (hnp : lookupKey br.portfolio.positions d.symbol = none)
    (hact : d.action = .close) :
    executeDecision snaps ts sp up tpj br d
      = (markExecBroker (pushEval br (evalEntryFor d p ts sp up tpj))
           d.symbol ts,
         .closeIgnored d.symbol) := by
  unfold executeDecision
  dsimp only
  rw [h]
  simp only [if_neg hpos, hact]
  have hclose : execute_close (pushEval br (evalEntryFor d p ts sp up tpj))
      d.symbol p ts none
      = (pushEval br (evalEntryFor d p ts sp up tpj),
         .closeIgnored d.symbol) := by
    unfold execute_close
    rw [popKey_eq_none _ _ (by simpa using hnp)]
  rw [hclose]

theorem executeDecision_sell_no_pos (br : SimulatedBroker)
    (d : DecisionPayload) (snaps : List (String × ℚ)) (ts : DateTime)
    (sp up : String) (tpj : Option String) (p : ℚ)
    (h : lookupKey snaps d.symbol = some p) (hpos : ¬ p ≤ 0)
    (hnp : lookupKey br.portfolio.positions d.symbol = none)
    (hact : d.action = .sell) :
    executeDecision snaps ts sp up tpj br d
      = (markExecBroker (pushEval br (evalEntryFor d p ts sp up tpj))
           d.symbol ts,
         .sellIgnored d.symbol) := by
  unfold executeDecision
  dsimp only
  rw [h]
  simp only [if_neg hpos, hact]
  have hsell : execute_sell (pushEval br (evalEntryFor d p ts sp up tpj)) d
      (p * (1 - (pushEval br
        (evalEntryFor d p ts sp up tpj)).max_slippage_bps / 10000)) ts
      = (pushEval br (evalEntryFor d p ts sp up tpj),
         .sellIgnored d.symbol) := by
    unfold execute_sell
    simp [hnp]
  rw [hsell]

/-- Claim C10: a CLOSE decision (and likewise a SELL) for a symbol with no
open position is not an error: `execute` returns the matching "ignored"
message and leaves cash, positions, trade log, closed positions and the
pending exit slot unchanged; only the evaluation log (one appended entry)
and `updated_at` change. -/
theorem close_without_position_is_benign (br : SimulatedBroker)
    (d : DecisionPayload) (snaps : List (String × ℚ)) (ts : DateTime)
    (sp up : String) (tpj : Option String) (p : ℚ)
    (h : lookupKey snaps d.symbol = some p) (hpos : ¬ p ≤ 0)
    (hnp : lookupKey br.portfolio.positions d.symbol = none)
    (hact : d.action = .close ∨ d.action = .sell) :
    (execute br [d] snaps ts sp up tpj).2
      = [if d.action = .close then ExecMessage.closeIgnored d.symbol
         else ExecMessage.sellIgnored d.symbol]
    ∧ (execute br [d] snaps ts sp up tpj).1.portfolio.current_cash
        = br.portfolio.current_cash
    ∧ (execute br [d] snaps ts sp up tpj).1.portfolio.positions
        = br.portfolio.positions
    ∧ (execute br [d] snaps ts sp up tpj).1.portfolio.trade_log
        = br.portfolio.trade_log
    ∧ (execute br [d] snaps ts sp up tpj).1.portfolio.closed_positions
        = br.portfolio.closed_positions
    ∧ (execute br [d] snaps ts sp up tpj).1.pending_exit_event
        = br.pending_exit_event
    ∧ (execute br [d] snaps ts sp up tpj).1.portfolio.evaluation_log
        = br.portfolio.evaluation_log
          ++ [{ evalEntryFor d p ts sp up tpj with executed := true }]
    ∧ (execute br [d] snaps ts sp up tpj).1.portfolio.updated_at = ts := by
  have hmarked :
      (markExecBroker (pushEval br (evalEntryFor d p ts sp up tpj))
        d.symbol ts).portfolio.evaluation_log
      = br.portfolio.evaluation_log
        ++ [{ evalEntryFor d p ts sp up tpj with executed := true }] := by
    unfold markExecBroker
    dsimp only
    rw [pushEval_evalLog]
    exact mark_eval_append _ _ _ _ rfl rfl
  rcases hact with hact | hact
  · rw [execute_singleton,
      executeDecision_close_no_pos br d snaps ts sp up tpj p h hpos hnp hact,
      hact]
    exact ⟨rfl, rfl, rfl, rfl, rfl, rfl, hmarked, rfl⟩
  · rw [execute_singleton,
      executeDecision_sell_no_pos br d snaps ts sp up tpj p h hpos hnp hact,
      hact]
    refine ⟨?_, rfl, rfl, rfl, rfl, rfl, hmarked, rfl⟩
    have hne : DecisionAction.sell ≠ DecisionAction.close := by decide
    simp [hne]

/-- A fresh broker over `create_initial_state` (no positions), used by the
concrete witnesses and counterexamples. -/
def emptyBroker : SimulatedBroker :=
  { portfolio := create_initial_state "sim" 1000 0 }

/-- Witness for C10: a CLOSE for "BTC" on the fresh broker with snapshot
price 50 returns the "CLOSE ignored" message and changes nothing but the
evaluation log and `updated_at`. -/
theorem close_without_position_is_benign_witness :
    (execute emptyBroker [{ symbol := "BTC", action := .close }]
        [("BTC", 50)] 5).2
      = [if ({ symbol := "BTC", action := .close } : DecisionPayload).action
            = DecisionAction.close
         then ExecMessage.closeIgnored "BTC" else ExecMessage.sellIgnored "BTC"]
    ∧ (execute emptyBroker [{ symbol := "BTC", action := .close }]
        [("BTC", 50)] 5).1.portfolio.current_cash
        = emptyBroker.portfolio.current_cash
    ∧ (execute emptyBroker [{ symbol := "BTC", action := .close }]
        [("BTC", 50)] 5).1.portfolio.positions
        = emptyBroker.portfolio.positions
    ∧ (execute emptyBroker [{ symbol := "BTC", action := .close }]
        [("BTC", 50)] 5).1.portfolio.trade_log
        = emptyBroker.portfolio.trade_log
    ∧ (execute emptyBroker [{ symbol := "BTC", action := .close }]
        [("BTC", 50)] 5).1.portfolio.closed_positions
        = emptyBroker.portfolio.closed_positions
    ∧ (execute emptyBroker [{ symbol := "BTC", action := .close }]
        [("BTC", 50)] 5).1.pending_exit_event = emptyBroker.pending_exit_event
    ∧ (execute emptyBroker [{ symbol := "BTC", action := .close }]
        [("BTC", 50)] 5).1.portfolio.evaluation_log
        = emptyBroker.portfolio.evaluation_log
          ++ [{ evalEntryFor { symbol := "BTC", action := .close } 50 5 "" ""
                  none with executed := true }]
    ∧ (execute emptyBroker [{ symbol := "BTC", action := .close }]
        [("BTC", 50)] 5).1.portfolio.updated_at = 5 :=
  close_without_position_is_benign emptyBroker
    { symbol := "BTC", action := .close } [("BTC", 50)] 5 "" "" none 50
    (by decide) (by norm_num) (by decide) (Or.inl rfl)

/-- A decision has a usable snapshot price: the symbol is present and its
price is positive. -/
def hasValidPrice (snaps : List (String × ℚ)) (d : DecisionPayload) : Bool :=
  match lookupKey snaps d.symbol with
  | some p => decide (0 < p)
  | none => false

theorem executeDecision_evalLog_length (br : SimulatedBroker)
    (d : DecisionPayload) (snaps : List (String × ℚ)) (ts : DateTime)
    (sp up : String) (tpj : Option String) :
    (executeDecision snaps ts sp up tpj br d).1.portfolio.evaluation_log.length
      = br.portfolio.evaluation_log.length
        + (if hasValidPrice snaps d then 1 else 0) := by
  cases hl : lookupKey snaps d.symbol with
  | none =>
    rw [executeDecision_no_data br d snaps ts sp up tpj hl]
    simp [hasValidPrice, hl]
  | some p =>
    by_cases hp : p ≤ 0
    · rw [executeDecision_invalid_price br d snaps ts sp up tpj p hl hp]
      simp [hasValidPrice, hl, not_lt.mpr hp]
    · rw [executeDecision_evalLog br d snaps ts sp up tpj p hl hp]
      simp [hasValidPrice, hl, not_le.mp hp]

theorem execute_foldl_evalLog_length (snaps : List (String × ℚ))
    (ts : DateTime) (sp up : String) (tpj : Option String) :
    ∀ (ds : List DecisionPayload) (acc : SimulatedBroker × List ExecMessage),
    ((ds.foldl (fun (acc : SimulatedBroker × List ExecMessage) d =>
        let r := executeDecision snaps ts sp up tpj acc.1 d
        (r.1, acc.2 ++ [r.2])) acc).1.portfolio.evaluation_log.length)
      = acc.1.portfolio.evaluation_log.length
        + ds.countP (hasValidPrice snaps) := by
  intro ds
  induction ds with
  | nil => intro acc; simp
  | cons d ds ih =>
    intro acc
    rw [List.foldl_cons, ih, List.countP_cons]
    dsimp only
    rw [executeDecision_evalLog_length]
    by_cases hv : hasValidPrice snaps d <;> simp [hv] <;> omega

/-- Claim C2 (amended): a decision whose symbol is missing from the
snapshots, or whose price is ≤ 0, is skipped with *no* evaluation-log entry
and no state change at all (contrary to the claim's "an entry is appended
regardless with executed=false"); a decision with a positive price appends
exactly one entry carrying the tick's timestamp. Consequently `execute`
grows the evaluation log by exactly the number of valid-price decisions. -/
theorem evaluation_log_totality (br : SimulatedBroker) (d : DecisionPayload)
    (snaps : List (String × ℚ)) (ts : DateTime) (sp up : String)
    (tpj : Option String) :
    (lookupKey snaps d.symbol = none →
      executeDecision snaps ts sp up tpj br d = (br, .noMarketData d.symbol))
    ∧ (∀ p, lookupKey snaps d.symbol = some p → p ≤ 0 →
      executeDecision snaps ts sp up tpj br d = (br, .invalidPrice d.symbol p))
    ∧ (∀ p, lookupKey snaps d.symbol = some p → ¬ p ≤ 0 →
      (executeDecision snaps ts sp up tpj br d).1.portfolio.evaluation_log
        = br.portfolio.evaluation_log
          ++ [{ evalEntryFor d p ts sp up tpj with
                executed := executedFlag br d p }])
    ∧ (∀ ds : List DecisionPayload,
      (execute br ds snaps ts sp up tpj).1.portfolio.evaluation_log.length
        = br.portfolio.evaluation_log.length
          + ds.countP (hasValidPrice snaps)) := by
  refine ⟨fun hl => executeDecision_no_data br d snaps ts sp up tpj hl,
    fun p hl hp => executeDecision_invalid_price br d snaps ts sp up tpj p hl hp,
    fun p hl hp => executeDecision_evalLog br d snaps ts sp up tpj p hl hp,
    fun ds => ?_⟩
  unfold execute
  dsimp only
  exact execute_foldl_evalLog_length snaps ts sp up tpj ds (br, [])

/-- Witness for C2 at concrete inputs: a BUY for "BTC" with no snapshot is
rejected with no evaluation entry, and with snapshot price 50 the log grows
by exactly one. -/
theorem evaluation_log_totality_witness :
    (executeDecision [] 5 "" "" none emptyBroker
        { symbol := "BTC", action := .buy }
      = (emptyBroker, .noMarketData "BTC"))
    ∧ ((execute emptyBroker [{ symbol := "BTC", action := .buy }]
          [("BTC", 50)] 5).1.portfolio.evaluation_log.length
        = emptyBroker.portfolio.evaluation_log.length
          + [({ symbol := "BTC", action := .buy } : DecisionPayload)].countP
              (hasValidPrice [("BTC", 50)])) :=
  ⟨(evaluation_log_totality emptyBroker { symbol := "BTC", action := .buy }
      [] 5 "" "" none).1 rfl,
   (evaluation_log_totality emptyBroker { symbol := "BTC", action := .buy }
      [("BTC", 50)] 5 "" "" none).2.2.2
     [{ symbol := "BTC", action := .buy }]⟩

/-- Claim C2 as stated is false: a decision rejected for a missing snapshot
(or a price of 0) appends *no* EvaluationLogEntry at all — the evaluation
log stays empty instead of receiving an `executed=false` entry. -/
theorem evaluation_log_not_total :
    (execute emptyBroker [{ symbol := "BTC", action := .buy }]
      [] 5).1.portfolio.evaluation_log = []
    ∧ (execute emptyBroker [{ symbol := "BTC", action := .buy }] [] 5).2
        = [.noMarketData "BTC"]
    ∧ (execute emptyBroker [{ symbol := "BTC", action := .buy }]
        [("BTC", 0)] 6).1.portfolio.evaluation_log = []
    ∧ (execute emptyBroker [{ symbol := "BTC", action := .buy }]
        [("BTC", 0)] 6).2 = [.invalidPrice "BTC" 0]
    ∧ ([] : List EvaluationLogEntry).length ≠ 1 := by
  exact ⟨rfl, rfl, rfl, rfl, by simp⟩

/-- Claim C3 (amended): the single appended evaluation entry is marked
`executed = true` exactly when the action is BUY (and the fill price did
not make `_execute_buy` raise), SELL, or CLOSE — *irrespective* of whether
a position was created, mutated or destroyed. HOLD and NO_ENTRY are never
marked. -/
theorem executed_flag_spec (br : SimulatedBroker) (d : DecisionPayload)
    (snaps : List (String × ℚ)) (ts : DateTime) (sp up : String)
    (tpj : Option String) (p : ℚ)
    (h : lookupKey snaps d.symbol = some p) (hpos : ¬ p ≤ 0) :
    ((executeDecision snaps ts sp up tpj br d).1.portfolio.evaluation_log
      = br.portfolio.evaluation_log
        ++ [{ evalEntryFor d p ts sp up tpj with
              executed := executedFlag br d p }])
    ∧ (executedFlag br d p = true
        ↔ (d.action = .buy ∧ ¬ p * (1 + br.max_slippage_bps / 10000) ≤ 0)
          ∨ d.action = .sell ∨ d.action = .close) := by
  refine ⟨executeDecision_evalLog br d snaps ts sp up tpj p h hpos, ?_⟩
  cases hact : d.action <;> simp [executedFlag, hact]

/-- Witness for C3's amended theorem at a concrete BUY with price 50. -/
theorem executed_flag_spec_witness :
    ((executeDecision [("BTC", 50)] 5 "" "" none emptyBroker
        { symbol := "BTC", action := .buy }).1.portfolio.evaluation_log
      = emptyBroker.portfolio.evaluation_log
        ++ [{ evalEntryFor { symbol := "BTC", action := .buy } 50 5 "" "" none
              with
              executed := executedFlag emptyBroker
                { symbol := "BTC", action := .buy } 50 }])
    ∧ (executedFlag emptyBroker { symbol := "BTC", action := .buy } 50 = true
        ↔ (({ symbol := "BTC", action := .buy } : DecisionPayload).action
              = DecisionAction.buy
            ∧ ¬ (50 : ℚ) * (1 + emptyBroker.max_slippage_bps / 10000) ≤ 0)
          ∨ ({ symbol := "BTC", action := .buy } : DecisionPayload).action
              = DecisionAction.sell
          ∨ ({ symbol := "BTC", action := .buy } : DecisionPayload).action
              = DecisionAction.close) :=
  executed_flag_spec emptyBroker { symbol := "BTC", action := .buy }
    [("BTC", 50)] 5 "" "" none 50 (by decide) (by norm_num)

/-- The broker used to exhibit the C3 counterexample: one ETH position
worth 100 (so equity is 101) but only 1 in cash. -/
def poorBroker : SimulatedBroker :=
  { portfolio :=
      { portfolio_id := "sim", starting_cash := 1, current_cash := 1
        positions :=
          [("ETH", { symbol := "ETH", quantity := 1, entry_price := 100
                     entry_timestamp := 0, current_price := 100 })]
        created_at := 0, updated_at := 0 } }

/-- Claim C3 as stated is false: a BUY rejected for insufficient cash
(margin 10.1 needed, 1 available) creates/mutates/destroys nothing yet its
evaluation entry is marked `executed = true`; a HOLD that *does* mutate the
ETH position (confidence and mark price change) keeps `executed = false`. -/
theorem executed_flag_counterexample :
    ((execute poorBroker
        [{ symbol := "BTC", action := .buy, size_pct := some 10
           leverage := some 1 }] [("BTC", 50)] 7).1.portfolio.evaluation_log.map
      (fun e => e.executed)) = [true]
    ∧ (execute poorBroker
        [{ symbol := "BTC", action := .buy, size_pct := some 10
           leverage := some 1 }] [("BTC", 50)] 7).2
      = [.buyInsufficientCash "BTC" (101 / 10) 1]
    ∧ (execute poorBroker
        [{ symbol := "BTC", action := .buy, size_pct := some 10
           leverage := some 1 }] [("BTC", 50)] 7).1.portfolio.positions
      = poorBroker.portfolio.positions
    ∧ (execute poorBroker
        [{ symbol := "BTC", action := .buy, size_pct := some 10
           leverage := some 1 }] [("BTC", 50)] 7).1.portfolio.trade_log = []
    ∧ (execute poorBroker
        [{ symbol := "BTC", action := .buy, size_pct := some 10
           leverage := some 1 }] [("BTC", 50)] 7).1.portfolio.current_cash = 1
    ∧ ((execute poorBroker
        [{ symbol := "ETH", action := .hold, confidence := some (9 / 10) }]
        [("ETH", 120)] 7).1.portfolio.evaluation_log.map
      (fun e => e.executed)) = [false]
    ∧ lookupKey (execute poorBroker
        [{ symbol := "ETH", action := .hold, confidence := some (9 / 10) }]
        [("ETH", 120)] 7).1.portfolio.positions "ETH"
      = some { symbol := "ETH", quantity := 1, entry_price := 100
               entry_timestamp := 0, current_price := 120
               confidence := 9 / 10 } := by
  refine ⟨?_, ?_, ?_, ?_, ?_, ?_, ?_⟩ <;>
    norm_num [execute, executeDecision, execute_buy, execute_hold, poorBroker,
      lookupKey, setKey, evalEntryFor, pushEval, markExecBroker,
      mark_evaluation_executed, markLastMatching, SimulatedPortfolio.equity,
      SimulatedPortfolio.total_position_value, SimulatedPosition.notional_value,
      pyOrQ, truthyQ, truthyS, executedFlag, build_exit_plan]

/-!
Serialization round-trip (C8).
-/

theorem position_roundtrip (p : SimulatedPosition) :
    SimulatedPosition.from_dict p.to_dict = p := by
  obtain ⟨s, q, e, ts, c, conf, lev, ⟨sl, tp, ic⟩⟩ := p
  rfl

theorem evalEntry_roundtrip (e : EvaluationLogEntry) :
    EvaluationLogEntry.from_dict e.to_dict = e := by
  obtain ⟨_, _, _, _, _, _, _, _, _, _, _, _⟩ := e
  rfl

theorem tradeEntry_roundtrip (e : TradeLogEntry) :
    TradeLogEntry.from_dict e.to_dict = e := by
  obtain ⟨_, _, _, _, _, _, _⟩ := e
  rfl

theorem closedPosition_roundtrip (c : ClosedPosition) :
    ClosedPosition.from_dict c.to_dict = c := by
  obtain ⟨_, _, _, _, _, _, _, _, _, _⟩ := c
  rfl

theorem portfolio_roundtrip (pf : SimulatedPortfolio) :
    SimulatedPortfolio.from_dict pf.to_dict = pf := by
  obtain ⟨pid, sc, cc, pos, tl, el, cp, ca, ua⟩ := pf
  simp [SimulatedPortfolio.to_dict, SimulatedPortfolio.from_dict,
    List.map_map, Function.comp_def, position_roundtrip, evalEntry_roundtrip,
    tradeEntry_roundtrip, closedPosition_roundtrip]

/-- Claim C8: every portfolio reachable from `create_initial_state` by
broker `execute` / `mark_to_market` calls serializes and deserializes to
itself, positions, exit plans and all four logs included (the proof in
fact never needs reachability: the round-trip holds for every portfolio
value). -/
theorem portfolio_roundtrip_reachable (pf : SimulatedPortfolio)
    (_h : ReachablePortfolio pf) :
    SimulatedPortfolio.from_dict pf.to_dict = pf :=
  portfolio_roundtrip pf

/-- Witness for C8: the freshly created portfolio is reachable (empty
operation sequence) and round-trips. -/
theorem portfolio_roundtrip_reachable_witness :
    ReachablePortfolio (create_initial_state "sim" 1000 0)
    ∧ SimulatedPortfolio.from_dict (create_initial_state "sim" 1000 0).to_dict
        = create_initial_state "sim" 1000 0 :=
  ⟨⟨"sim", 1000, 0, 5, 50, false, [], rfl⟩,
   portfolio_roundtrip_reachable _ ⟨"sim", 1000, 0, 5, 50, false, [], rfl⟩⟩

/-!
RSI (C5).
-/

/-- The pointwise law the implemented `_rsi` actually satisfies: `50`
wherever the smoothed average loss is NaN *or zero* (the zero is first
turned into NaN by `replace(0.0, nan)` and then hit by `fillna(50)`), and
the Wilder formula `100 − 100/(1 + avg_gain/avg_loss)` elsewhere. Note a
zero average loss yields 50, not the textbook 100. -/
def wilderRsiPoint (g l : Option ℚ) : ℚ :=
  match l with
  | none => 50
  | some lv =>
    if lv = 0 then 50
    else
      match g with
      | none => 50
      | some gv => 100 - 100 / (1 + gv / lv)

theorem rsiPoint_rsPoint (g l : Option ℚ) :
    rsiPoint (rsPoint g l) = wilderRsiPoint g l := by
  cases l with
  | none => rfl
  | some lv =>
    by_cases hl : lv = 0
    · simp [rsPoint, rsiPoint, wilderRsiPoint, hl]
    · cases g with
      | none => simp [rsPoint, rsiPoint, wilderRsiPoint, hl]
      | some gv => simp [rsPoint, rsiPoint, wilderRsiPoint, hl]

/-- Claim C5 (amended): the `_rsi` series is, pointwise over the
α = 1/n-smoothed gain/loss averages, 50 wherever the average loss is N/A
*or zero* (not 100 as the claim states for the zero-loss case) and the
Wilder formula elsewhere; the `rsi` method returns the last value of that
series (with Python's `period or 14` default handling). -/
theorem rsi_zero_loss_is_50 (xs : List ℚ) (n : ℕ) :
    _rsi xs n = List.zipWith wilderRsiPoint (rsiAvgGain xs n) (rsiAvgLoss xs n)
    ∧ rsi xs (some n)
        = _last_value (_rsi xs (if n = 0 then rsi_period else n)) := by
  constructor
  · unfold _rsi
    by_cases hxs : xs.isEmpty
    · rw [if_pos hxs]
      have : xs = [] := List.isEmpty_iff.mp hxs
      subst this
      rfl
    · rw [if_neg hxs, List.map_zipWith]
      have hfun : (fun g l => rsiPoint (rsPoint g l)) = wilderRsiPoint :=
        funext fun g => funext fun l => rsiPoint_rsPoint g l
      rw [hfun]
  · rfl

/-- Claim C5 is false as stated: on the strictly rising series `[1, 2]` the
smoothed average loss at the last point is exactly `0` and the average gain
is `1`, so the claim requires RSI = 100 there; the code returns 50 (both in
the series and from the `rsi` method). -/
theorem rsi_zero_loss_counterexample :
    rsiAvgGain [1, 2] 14 = [none, some 1]
    ∧ rsiAvgLoss [1, 2] 14 = [none, some 0]
    ∧ _rsi [1, 2] 14 = [50, 50]
    ∧ rsi [1, 2] (some 14) = 50
    ∧ (50 : ℚ) ≠ 100 := by
  refine ⟨?_, ?_, ?_, ?_, by norm_num⟩ <;>
    norm_num [rsi, _rsi, rsiAvgGain, rsiAvgLoss, rsiGain, rsiLoss, diffList,
      diffFrom, ewmMeanNa, rsPoint, rsiPoint, _last_value, rsi_period]

/-!
Snapshot construction (C7).
-/

theorem getLast?_cons_of_ne_nil {α : Type} (a : α) (l : List α) (h : l ≠ []) :
    (a :: l).getLast? = l.getLast? := by
  cases l with
  | nil => exact absurd rfl h
  | cons b t => exact List.getLast?_cons_cons

theorem rollingMeanAux_ne_nil (w : ℕ) (seen : List ℚ) (x : ℚ) (xs : List ℚ) :
    rollingMeanAux w seen (x :: xs) ≠ [] := by
  simp [rollingMeanAux]

theorem rollingMeanAux_length (w : ℕ) :
    ∀ (l seen : List ℚ), (rollingMeanAux w seen l).length = l.length := by
  intro l
  induction l with
  | nil => intro seen; rfl
  | cons x xs ih => intro seen; simp [rollingMeanAux, ih]

theorem rollingMeanAux_getLast (w : ℕ) :
    ∀ (l seen : List ℚ), l ≠ [] →
    (rollingMeanAux w seen l).getLast?
      = some ((((l.reverse ++ seen).take w).sum)
          / ((((l.reverse ++ seen).take w).length : ℚ))) := by
  intro l
  induction l with
  | nil => intro seen h; exact absurd rfl h
  | cons x xs ih =>
    intro seen _
    cases xs with
    | nil => simp [rollingMeanAux]
    | cons y rest =>
      have hstep : rollingMeanAux w seen (x :: y :: rest)
          = (((x :: seen).take w).sum / ((((x :: seen).take w).length : ℚ)))
            :: rollingMeanAux w (x :: seen) (y :: rest) := rfl
      rw [hstep,
        getLast?_cons_of_ne_nil _ _ (rollingMeanAux_ne_nil w _ y rest),
        ih (x :: seen) (by simp)]
      have hl : (y :: rest).reverse ++ (x :: seen)
          = (x :: y :: rest).reverse ++ seen := by
        simp [List.reverse_cons, List.append_assoc]
      rw [hl]

theorem zipWith_getLast? {α β γ : Type} (f : α → β → γ) :
    ∀ (l1 : List α) (l2 : List β), l1.length = l2.length →
    ∀ (a : α) (b : β), l1.getLast? = some a → l2.getLast? = some b →
    (List.zipWith f l1 l2).getLast? = some (f a b) := by
  intro l1
  induction l1 with
  | nil => intro l2 h a b ha; simp at ha
  | cons x xs ih =>
    intro l2 hlen a b ha hb
    cases l2 with
    | nil => simp at hlen
    | cons y ys =>
      cases xs with
      | nil =>
        cases ys with
        | nil =>
          simp at ha hb
          subst ha
          subst hb
          rfl
        | cons z zs => simp at hlen
      | cons x2 xs2 =>
        cases ys with
        | nil => simp at hlen
        | cons y2 ys2 =>
          rw [List.zipWith_cons_cons,
            getLast?_cons_of_ne_nil _ _ (by simp),
            ih (y2 :: ys2) (by simpa using hlen) a b
              (by rw [← List.getLast?_cons_cons (a := x)]; exact ha)
              (by rw [← List.getLast?_cons_cons (a := y)]; exact hb)]

/-- The specification's formula for the snapshot's `volume_ratio`: the last
bar's volume divided by the rolling mean of volume over
`volume_ratio_period` (the mean of the up-to-`w` most recent volumes), with
the infinities/NaN of a zero mean mapped to 0. Stated from the spec's
words, to be compared with the implementation. -/
def specVolumeRatio (volumes : List ℚ) (w : ℕ) : ℚ :=
  let mean := (volumes.reverse.take w).sum / (((volumes.reverse.take w).length : ℚ))
  match volumes.getLast? with
  | none => 0
  | some v => if mean = 0 then 0 else v / mean

theorem volumeRatioList_getLast (volumes : List ℚ) (w : ℕ)
    (h : volumes ≠ []) :
    (volumeRatioList volumes w).getLast? = some (specVolumeRatio volumes w) := by
  obtain ⟨v, hv⟩ : ∃ v, volumes.getLast? = some v := by
    cases hlast : volumes.getLast? with
    | none => exact absurd (List.getLast?_eq_none_iff.mp hlast) h
    | some v => exact ⟨v, rfl⟩
  have hmean : (rollingMean w volumes).getLast?
      = some ((volumes.reverse.take w).sum
          / (((volumes.reverse.take w).length : ℚ))) := by
    unfold rollingMean
    rw [rollingMeanAux_getLast w volumes [] h]
    simp
  unfold volumeRatioList
  rw [zipWith_getLast? _ volumes (rollingMean w volumes)
    (by unfold rollingMean; rw [rollingMeanAux_length]) v _ hv hmean]
  unfold specVolumeRatio
  rw [hv]

/-- Claim C7: `_compute_snapshot_from_bars` returns `none` exactly when
fewer than `max(volume_ratio_period, 20)` bars are supplied (never a
zero-filled snapshot), and any snapshot it does return carries
`volume_ratio = volume / rolling_mean(volume, volume_ratio_period)` of the
last (index-sorted) bar, with a zero mean mapped to 0. -/
theorem snapshot_absent_iff (symbol : String) (bars : List BarRow)
    (tf : Int) (vrp : ℕ) :
    (_compute_snapshot_from_bars symbol bars tf vrp = none
      ↔ bars.length < max vrp 20)
    ∧ (¬ bars.length < max vrp 20 →
        ∃ snap aggbar,
          _compute_snapshot_from_bars symbol bars tf vrp = some (snap, aggbar)
          ∧ snap.volume_ratio
              = specVolumeRatio ((sortIndex bars).map (fun b => b.volume))
                  vrp) := by
  have hsortlen : (sortIndex bars).length = bars.length := by
    unfold sortIndex
    exact List.length_mergeSort ..
  have hmaxpos : 0 < max vrp 20 :=
    Nat.lt_of_lt_of_le (by norm_num) (le_max_right vrp 20)
  by_cases hempty : bars.isEmpty
  · have hnil : bars = [] := by simpa using hempty
    subst hnil
    refine ⟨⟨fun _ => ?_, fun _ => rfl⟩, fun hge => ?_⟩
    · simpa using hmaxpos
    · exact absurd (by simpa using hmaxpos) hge
  · unfold _compute_snapshot_from_bars
    rw [if_neg (by simpa using hempty)]
    dsimp only
    by_cases hlen : bars.length < max vrp 20
    · rw [if_pos (by rw [hsortlen]; exact hlen)]
      exact ⟨⟨fun _ => hlen, fun _ => rfl⟩, fun hge => absurd hlen hge⟩
    · rw [if_neg (by rw [hsortlen]; exact hlen)]
      have hne : sortIndex bars ≠ [] := by
        intro hcon
        rw [hcon] at hsortlen
        simp only [List.length_nil] at hsortlen
        omega
      obtain ⟨current, hcur⟩ : ∃ c, (sortIndex bars).getLast? = some c := by
        cases hlast : (sortIndex bars).getLast? with
        | none => exact absurd (List.getLast?_eq_none_iff.mp hlast) hne
        | some c => exact ⟨c, rfl⟩
      rw [hcur]
      dsimp only
      refine ⟨⟨fun hcon => (by cases hcon), fun hcon => absurd hcon hlen⟩,
        fun _ => ⟨_, _, rfl, ?_⟩⟩
      show ((volumeRatioList ((sortIndex bars).map (fun b => b.volume))
          vrp).getLast?).getD 0 = _
      rw [volumeRatioList_getLast _ vrp (by
        intro hcon
        exact hne (List.map_eq_nil_iff.mp hcon))]
      rfl

/-- A constant bar row used by the C7 witness. -/
def sampleBar (i : Int) : BarRow :=
  { index := i, open_price := 1, high_price := 2, low_price := 1
    close_price := 1, volume := 5 }

/-- Twenty sample bars with increasing index. -/
def sampleBars20 : List BarRow :=
  (List.range 20).map (fun i => sampleBar i)

/-- Witness for C7: with a single bar the snapshot is absent (1 < 20), and
the presence branch of the theorem applied at a 20-bar input. -/
theorem snapshot_absent_iff_witness :
    (_compute_snapshot_from_bars "S" [sampleBar 0] 60 3 = none
      ↔ (1 : ℕ) < max 3 20)
    ∧ ∃ snap aggbar,
        _compute_snapshot_from_bars "S" sampleBars20 60 3 = some (snap, aggbar)
        ∧ snap.volume_ratio
            = specVolumeRatio
                ((sortIndex sampleBars20).map (fun b => b.volume)) 3 :=
  ⟨by
    have h := (snapshot_absent_iff "S" [sampleBar 0] 60 3).1
    simpa using h,
   (snapshot_absent_iff "S" sampleBars20 60 3).2 (by decide)⟩

/-!
Rule deduplication (C4).
-/

/-- Claim C4 is false as stated: the threshold hard-coded in
`FeedbackLoopEngine.__init__` is 0.8, not 0.7. The candidate
"avoid buying when rsi high" has word-set Jaccard similarity 4/5 = 0.8 with
the active rule "avoid buying when rsi" — strictly above 0.7 — yet
`_is_duplicate_rule` does not reject it (0.8 is not > 0.8), so both rules
can be active together. -/
theorem dedup_threshold_counterexample :
    _text_similarity "avoid buying when rsi high" "avoid buying when rsi"
      = 4 / 5
    ∧ ((4 : ℚ) / 5 > 7 / 10)
    ∧ (mkFeedbackLoopEngine).is_duplicate_rule ["avoid buying when rsi"]
        "avoid buying when rsi high" = false
    ∧ (mkFeedbackLoopEngine).duplicate_threshold = 4 / 5 := by
  have hsim : _text_similarity "avoid buying when rsi high"
      "avoid buying when rsi" = 4 / 5 := by
    unfold _text_similarity
    rw [if_neg (by decide)]
    rw [show (wordFinset "avoid buying when rsi high"
        ∩ wordFinset "avoid buying when rsi").card = 4 from by decide]
    rw [show (wordFinset "avoid buying when rsi high"
        ∪ wordFinset "avoid buying when rsi").card = 5 from by decide]
    norm_num
  refine ⟨hsim, by norm_num, ?_, rfl⟩
  rw [show FeedbackLoopEngine.is_duplicate_rule mkFeedbackLoopEngine
      ["avoid buying when rsi"] "avoid buying when rsi high"
      = ((["avoid buying when rsi"].take 50).any
        (fun existing_rule =>
          decide (_text_similarity "avoid buying when rsi high" existing_rule
            > (4 : ℚ) / 5))) from rfl]
  rw [show (["avoid buying when rsi"].take 50) = ["avoid buying when rsi"]
    from by decide]
  simp only [List.any_cons, List.any_nil, Bool.or_false]
  rw [hsim]
  norm_num

/-- Claim C4 (amended): with the code's actual threshold 0.8 — a candidate
passes `_is_duplicate_rule` iff every fetched rule (up to the 50 most
recent active ones) has Jaccard similarity ≤ 0.8 with it; consequently a
pairwise-≤ 0.8 set of fetched active rules stays pairwise ≤ 0.8 when a
candidate that passed deduplication is persisted. -/
theorem dedup_threshold_spec (stored : List String) (r : String) :
    ((mkFeedbackLoopEngine).is_duplicate_rule stored r = false
      ↔ ∀ rule ∈ fetch_active_rules stored 50,
          _text_similarity r rule ≤ (mkFeedbackLoopEngine).duplicate_threshold)
    ∧ (List.Pairwise (fun a b => _text_similarity a b ≤ (4 : ℚ) / 5)
          (fetch_active_rules stored 50) →
        (mkFeedbackLoopEngine).is_duplicate_rule stored r = false →
        List.Pairwise (fun a b => _text_similarity a b ≤ (4 : ℚ) / 5)
          (r :: fetch_active_rules stored 50)) := by
  have hiff : (mkFeedbackLoopEngine).is_duplicate_rule stored r = false
      ↔ ∀ rule ∈ fetch_active_rules stored 50,
          _text_similarity r rule ≤ (mkFeedbackLoopEngine).duplicate_threshold := by
    unfold FeedbackLoopEngine.is_duplicate_rule
    rw [List.any_eq_false]
    constructor
    · intro hall rule hr
      have := hall rule hr
      rw [decide_eq_true_eq] at this
      exact not_lt.mp this
    · intro hall rule hr
      rw [decide_eq_true_eq]
      exact not_lt.mpr (hall rule hr)
  refine ⟨hiff, fun hpw hpass => ?_⟩
  exact List.Pairwise.cons (fun b hb => hiff.mp hpass b hb) hpw

/-- Witness for C4's amended theorem: the candidate
"exit all positions before settlement" shares no word with the stored rule
"avoid buying when rsi high", passes deduplication, and the pairwise bound
extends. -/
theorem dedup_threshold_spec_witness :
    ((mkFeedbackLoopEngine).is_duplicate_rule ["avoid buying when rsi high"]
        "exit all positions before settlement" = false
      ↔ ∀ rule ∈ fetch_active_rules ["avoid buying when rsi high"] 50,
          _text_similarity "exit all positions before settlement" rule
            ≤ (mkFeedbackLoopEngine).duplicate_threshold)
    ∧ List.Pairwise (fun a b => _text_similarity a b ≤ (4 : ℚ) / 5)
        ("exit all positions before settlement"
          :: fetch_active_rules ["avoid buying when rsi high"] 50) := by
  have hsim : _text_similarity "exit all positions before settlement"
      "avoid buying when rsi high" = 0 := by
    unfold _text_similarity
    rw [if_neg (by decide)]
    rw [show (wordFinset "exit all positions before settlement"
        ∩ wordFinset "avoid buying when rsi high").card = 0 from by decide]
    rw [show (wordFinset "exit all positions before settlement"
        ∪ wordFinset "avoid buying when rsi high").card = 10 from by decide]
    norm_num
  have hpass : (mkFeedbackLoopEngine).is_duplicate_rule
      ["avoid buying when rsi high"]
      "exit all positions before settlement" = false := by
    rw [show FeedbackLoopEngine.is_duplicate_rule mkFeedbackLoopEngine
        ["avoid buying when rsi high"] "exit all positions before settlement"
        = ((["avoid buying when rsi high"].take 50).any
          (fun existing_rule =>
            decide (_text_similarity "exit all positions before settlement"
              existing_rule > (4 : ℚ) / 5))) from rfl]
    rw [show (["avoid buying when rsi high"].take 50)
      = ["avoid buying when rsi high"] from by decide]
    simp only [List.any_cons, List.any_nil, Bool.or_false]
    rw [hsim]
    norm_num
  exact ⟨(dedup_threshold_spec ["avoid buying when rsi high"]
      "exit all positions before settlement").1,
    (dedup_threshold_spec ["avoid buying when rsi high"]
      "exit all positions before settlement").2 (by simp [fetch_active_rules])
      hpass⟩

end Autotrade
